import Mathlib

/-!
Verification development for the Anarisuto intent-extraction and
query-planning core (backend/app/query_planner and backend/app/mcp).

The Python values that can appear in an intent payload's `filters` map are
modelled by the inductive `Value`.  Python's `isinstance` tests, truthiness
and `str.strip` are modelled explicitly; note that in Python `bool` is a
subtype of `int`, so `isinstance(True, int)` holds.
-/

set_option maxHeartbeats 4000000
set_option maxRecDepth 100000

namespace Anarisuto

inductive Value where
  | vNone : Value
  | vInt (n : Int) : Value
  | vBool (b : Bool) : Value
  | vStr (s : String) : Value
  | vList (l : List Value) : Value


/-- Python whitespace characters stripped by `str.strip()` (ASCII range). -/
def pyWSChar (c : Char) : Bool :=
  c = ' ' || c.toNat = 9 || c.toNat = 10 || c.toNat = 11 || c.toNat = 12 || c.toNat = 13

def stripL (p : Char → Bool) (l : List Char) : List Char :=
  ((l.dropWhile p).reverse.dropWhile p).reverse

/-- `s.strip()` -/
def pyStrip (s : String) : String := ⟨stripL pyWSChar s.data⟩

/-- `s.lower()` (ASCII) -/
def pyLower (s : String) : String := ⟨s.data.map Char.toLower⟩

/-- the apostrophe character used by Python `repr` of strings -/
def sq : String := String.singleton (Char.ofNat 39)

mutual

/-- Python `repr(v)` (as used for list elements inside `str(list)`). -/
def pyReprV : Value → String
  | .vNone => "None"
  | .vInt n => toString n
  | .vBool b => if b then "True" else "False"
  | .vStr s => sq ++ s ++ sq
  | .vList l => "[" ++ pyReprL l ++ "]"

def pyReprL : List Value → String
  | [] => ""
  | [v] => pyReprV v
  | v :: rest => pyReprV v ++ ", " ++ pyReprL rest

end

/-- Python `str(v)`. -/
def pyStr : Value → String
  | .vStr s => s
  | .vList l => "[" ++ pyReprL l ++ "]"
  | v => pyReprV v

/-- `isinstance(v, int)` together with the integer value (`True` counts as 1). -/
def Value.isinstInt : Value → Option Int
  | .vInt n => some n
  | .vBool b => some (if b then 1 else 0)
  | _ => none

/-- `isinstance(v, list)` together with the list. -/
def Value.isinstList : Value → Option (List Value)
  | .vList l => some l
  | _ => none

/-- Python truthiness `bool(v)`. -/
def Value.truthy : Value → Bool
  | .vNone => false
  | .vInt n => n ≠ 0
  | .vBool b => b
  | .vStr s => s ≠ ""
  | .vList l => !l.isEmpty

/-- The planner idiom `isinstance(v, str) and v.strip()`: returns the stripped
string when `v` is a string whose strip is non-empty. -/
def Value.strOpt : Value → Option String
  | .vStr s => if pyStrip s = "" then none else some (pyStrip s)
  | _ => none

/-- The `filters` map of an intent payload, one field per key the planner
reads via `filters.get(...)`; an absent key is `vNone` (Python `dict.get`). -/
structure Filters where
  years : Value := .vNone
  year_from : Value := .vNone
  year_to : Value := .vNone
  year : Value := .vNone
  year_count : Value := .vNone
  category : Value := .vNone
  categories : Value := .vNone
  product_id : Value := .vNone
  product_name : Value := .vNone
  limit : Value := .vNone
  order : Value := .vNone
  entity : Value := .vNone
  average : Value := .vNone


/-- An intent payload as consumed by `plan_intent` after the shape checks
(`metrics`/`dimensions` are lists, `filters` is a dict). -/
structure IntentPayload where
  intent : String
  metrics : List String
  dimensions : List String
  filters : Filters
  chart : Value := .vNone


/-- catalog.py: `IntentSpec`.  `allowed_metrics`/`allowed_dimensions` are
Python sets; they are kept here as lists in the order written in the source
(the fallback `list(spec.allowed_dimensions)[0]` in planner.py depends on
set iteration order, which is not specified by Python; this model fixes the
written order). -/
structure IntentSpec where
  name : String
  allowed_metrics : List String
  allowed_dimensions : List String
  default_chart : String


/-- catalog.py: the `INTENTS` registry. -/
def INTENTS : List (String × IntentSpec) :=
  [ ("sales_trend", ⟨"sales_trend", ["total_revenue"], ["year"], "line"⟩),
    ("sales_comparison", ⟨"sales_comparison", ["total_revenue"], ["year"], "bar"⟩),
    ("revenue_by_category", ⟨"revenue_by_category", ["total_revenue"], ["category"], "bar"⟩),
    ("top_products", ⟨"top_products", ["total_revenue"], ["product"], "bar"⟩),
    ("sales_comparison_by_year", ⟨"sales_comparison_by_year", ["total_revenue"], ["year"], "bar"⟩),
    ("sales_trend_over_time", ⟨"sales_trend_over_time", ["total_revenue"], ["year"], "line"⟩),
    ("total_sales_for_period", ⟨"total_sales_for_period", ["total_revenue"], ["year"], "bar"⟩),
    ("sales_by_product", ⟨"sales_by_product", ["total_revenue"], ["product"], "bar"⟩),
    ("product_sales_trend", ⟨"product_sales_trend", ["total_revenue"], ["year"], "line"⟩),
    ("sales_by_category", ⟨"sales_by_category", ["total_revenue"], ["category"], "bar"⟩),
    ("top_bottom_performers", ⟨"top_bottom_performers", ["total_revenue"], ["product", "category"], "bar"⟩),
    ("sales_breakdown_for_year", ⟨"sales_breakdown_for_year", ["total_revenue"], ["product", "category"], "bar"⟩),
    ("sales_growth_analysis", ⟨"sales_growth_analysis", ["total_revenue"], ["year"], "line"⟩),
    ("clarification_required", ⟨"clarification_required", ["total_revenue"], ["year"], "line"⟩),
    ("multi_year_comparison", ⟨"multi_year_comparison", ["total_revenue"], ["year"], "bar"⟩) ]

/-- `INTENTS[name]` / `name in INTENTS`. -/
def lookupIntent (n : String) : Option IntentSpec :=
  (INTENTS.find? (fun pr => pr.1 = n)).map (·.2)

/-- planner.py: `PlannedQuery`. -/
structure PlannedQuery where
  sql : String
  params : List (String × Value)
  chart_type : String
  label_field : String
  value_field : String
  series_field : Option String := none


/-- A WHERE-fragment together with the parameters it binds and whether it
forces the products join (`join_products = True`). -/
structure Part where
  w : List String := []
  ps : List (String × Value) := []
  jp : Bool := false

/-- `" AND ".join(where)` -/
def joinAnd : List String → String
  | [] => ""
  | [w] => w
  | w :: rest => w ++ " AND " ++ joinAnd rest

/-- `("WHERE " + " AND ".join(where)) if where else ""` -/
def whereSql (w : List String) : String :=
  if w.isEmpty then "" else "WHERE " ++ joinAnd w

/-- `"JOIN products p ON p.id = s.product_id" if join_products else ""` -/
def joinSql (j : Bool) : String :=
  if j then "JOIN products p ON p.id = s.product_id" else ""

/-- `if "%" not in name: name = f"%{name}%"` applied to a stripped name. -/
def likePat (s : String) : String :=
  if s.data.contains '%' then s else "%" ++ s ++ "%"

/-- `[str(c).strip().lower() for c in categories if str(c).strip()]` -/
def cleanedCats (l : List Value) : List String :=
  l.filterMap (fun c =>
    if pyStrip (pyStr c) = "" then none else some (pyLower (pyStrip (pyStr c))))

/-- insert into an ascending list -/
def insSorted (x : Int) : List Int → List Int
  | [] => [x]
  | y :: t => if x ≤ y then x :: y :: t else y :: insSorted x t

/-- insertion sort, ascending -/
def sortInts : List Int → List Int
  | [] => []
  | x :: t => insSorted x (sortInts t)

/-- Python `sorted(set(l))` for a list of ints. -/
def sortedSet (l : List Int) : List Int :=
  sortInts l.dedup

/-- the `if isinstance(year_from, int): ... if isinstance(year_to, int): ...`
pair of range fragments shared by several branches -/
def yfytPart (f : Filters) : Part :=
  { w := (match f.year_from.isinstInt with
          | some _ => ["s.year >= :year_from"]
          | none => []) ++
         (match f.year_to.isinstInt with
          | some _ => ["s.year <= :year_to"]
          | none => []),
    ps := (match f.year_from.isinstInt with
           | some _ => [("year_from", f.year_from)]
           | none => []) ++
          (match f.year_to.isinstInt with
           | some _ => [("year_to", f.year_to)]
           | none => []) }

/-- `if isinstance(year, int): ... else: (year_from/year_to fragments)` -/
def yearOrRangePart (f : Filters) : Part :=
  match f.year.isinstInt with
  | some _ => { w := ["s.year = :year"], ps := [("year", f.year)] }
  | none => yfytPart f

/-- `if isinstance(product_id, int): ...` -/
def pidPart (f : Filters) : Part :=
  match f.product_id.isinstInt with
  | some _ => { w := ["s.product_id = :product_id"], ps := [("product_id", f.product_id)] }
  | none => { }

/-- `if isinstance(category, str) and category.strip(): ...` -/
def catPart (f : Filters) : Part :=
  match f.category.strOpt with
  | some c => { w := ["lower(p.category) = lower(:category)"],
                ps := [("category", .vStr c)], jp := true }
  | none => { }

/-- category fragment with the `elif isinstance(categories, list) and
categories:` fallback of the trend branch -/
def catOrCatsPart (f : Filters) : Part :=
  match f.category.strOpt with
  | some c => { w := ["lower(p.category) = lower(:category)"],
                ps := [("category", .vStr c)], jp := true }
  | none =>
    match f.categories.isinstList with
    | some l =>
      if l.isEmpty then { }
      else
        if (cleanedCats l).isEmpty then { }
        else { w := ["lower(p.category) = ANY(:categories)"],
               ps := [("categories", .vList ((cleanedCats l).map Value.vStr))],
               jp := true }
    | none => { }

/-- `if isinstance(product_name, str) and product_name.strip(): ...` -/
def pnPart (f : Filters) : Part :=
  match f.product_name.strOpt with
  | some s => { w := ["p.name ILIKE :product_name"],
                ps := [("product_name", .vStr (likePat s))], jp := true }
  | none => { }

/-- `if isinstance(years, list) and years:` else range fragments -/
def yearsOrRangePart (f : Filters) : Part :=
  match f.years.isinstList with
  | some l =>
    if l.isEmpty then yfytPart f
    else { w := ["s.year = ANY(:years)"], ps := [("years", .vList l)] }
  | none => yfytPart f

/-- the `SELECT s.year ... FROM sales s` header of the trend-like templates -/
def selYearSum : String :=
  "\n            SELECT s.year::TEXT AS label,\n                   SUM(s.revenue)::NUMERIC AS value\n            FROM sales s\n            "

/-- the line break between the `{join_sql}` and `{where_sql}` slots -/
def nl12 : String := "\n            "

/-- the `GROUP BY s.year ORDER BY s.year ASC` tail of the trend templates -/
def tailGroupYear : String :=
  "\n            GROUP BY s.year\n            ORDER BY s.year ASC\n        "

/-- planner.py branch for `sales_trend` / `sales_comparison` /
`sales_trend_over_time`. -/
def branch_trend (chart : String) (f : Filters) : PlannedQuery :=
  { sql := selYearSum ++
           joinSql (f.category.truthy || f.categories.truthy || f.product_name.truthy ||
                    (catOrCatsPart f).jp || (pnPart f).jp) ++
           nl12 ++
           whereSql ((yearsOrRangePart f).w ++ (pidPart f).w ++ (catOrCatsPart f).w ++ (pnPart f).w) ++
           tailGroupYear,
    params := (yearsOrRangePart f).ps ++ (pidPart f).ps ++ (catOrCatsPart f).ps ++ (pnPart f).ps,
    chart_type := chart, label_field := "label", value_field := "value" }

/-- the `yr_list = sorted(set(...))` path of `sales_comparison_by_year` -/
def yearsSortedPart (f : Filters) : Part :=
  match sortedSet ((match f.year_from.isinstInt with | some a => [a] | none => []) ++
                   (match f.year_to.isinstInt with | some b => [b] | none => [])) with
  | [] => { }
  | l => { w := ["s.year = ANY(:years)"], ps := [("years", .vList (l.map Value.vInt))] }

/-- `if isinstance(years, list) and years:` else the
`yr_list = sorted(set(...))` path of `sales_comparison_by_year`. -/
def yearsOrSortedPart (f : Filters) : Part :=
  match f.years.isinstList with
  | some l =>
    if l.isEmpty then yearsSortedPart f
    else { w := ["s.year = ANY(:years)"], ps := [("years", .vList l)] }
  | none => yearsSortedPart f

/-- planner.py branch for `sales_comparison_by_year`. -/
def branch_comparison_by_year (chart : String) (f : Filters) : PlannedQuery :=
  { sql := selYearSum ++
           joinSql (f.category.truthy || f.product_name.truthy ||
                    (catPart f).jp || (pnPart f).jp) ++
           nl12 ++
           whereSql ((yearsOrSortedPart f).w ++ (pidPart f).w ++ (catPart f).w ++ (pnPart f).w) ++
           tailGroupYear,
    params := (yearsOrSortedPart f).ps ++ (pidPart f).ps ++ (catPart f).ps ++ (pnPart f).ps,
    chart_type := chart, label_field := "label", value_field := "value" }

/-- the `label` local of the `total_sales_for_period` branch -/
def totalLabel (f : Filters) : String :=
  match f.year.isinstInt with
  | some y => toString y
  | none =>
    match f.year_from.isinstInt, f.year_to.isinstInt with
    | some a, some b => toString a ++ "-" ++ toString b
    | _, _ => "total"

/-- the `SELECT :label ...` header of the `total_sales_for_period` template -/
def selLabelTotal : String :=
  "\n            SELECT :label::TEXT AS label,\n                   COALESCE(SUM(s.revenue), 0)::NUMERIC AS value\n            FROM sales s\n            "

/-- the closing whitespace of the `total_sales_for_period` template -/
def tailTotal : String := "\n        "

/-- planner.py branch for `total_sales_for_period`. -/
def branch_total_sales (chart : String) (f : Filters) : PlannedQuery :=
  { sql := selLabelTotal ++
           joinSql (f.category.truthy || f.product_name.truthy ||
                    (catPart f).jp || (pnPart f).jp) ++
           nl12 ++
           whereSql ((yearOrRangePart f).w ++ (pidPart f).w ++ (catPart f).w ++ (pnPart f).w) ++
           tailTotal,
    params := (yearOrRangePart f).ps ++ (pidPart f).ps ++ (catPart f).ps ++ (pnPart f).ps ++
              [("label", .vStr (totalLabel f))],
    chart_type := chart, label_field := "label", value_field := "value" }

/-- `if not isinstance(limit, int) or limit <= 0 or limit > cap: limit = fb`;
the original value object is kept when it passes the test. -/
def resolveLimit (v : Value) (cap fb : Int) : Value :=
  match v.isinstInt with
  | some n => if n ≤ 0 ∨ cap < n then .vInt fb else v
  | none => .vInt fb

/-- the `SELECT p.name ... JOIN products` header of the by-product templates -/
def selByProduct : String :=
  "\n            SELECT p.name AS label,\n                   SUM(s.revenue)::NUMERIC AS value\n            FROM sales s\n            JOIN products p ON p.id = s.product_id\n            "

/-- the `GROUP BY p.name ... LIMIT :limit` tail of the by-product templates -/
def tailByProduct : String :=
  "\n            GROUP BY p.name\n            ORDER BY value DESC\n            LIMIT :limit\n        "

/-- planner.py branch for `sales_by_product` (limit window [1,100], default 20). -/
def branch_sales_by_product (chart : String) (f : Filters) : PlannedQuery :=
  { sql := selByProduct ++
           whereSql ((yearOrRangePart f).w ++ (catPart f).w) ++
           tailByProduct,
    params := [("limit", resolveLimit f.limit 100 20)] ++
              (yearOrRangePart f).ps ++ (catPart f).ps,
    chart_type := chart, label_field := "label", value_field := "value" }

/-- the `SELECT s.year ... JOIN products` header of `product_sales_trend` -/
def selPST : String :=
  "\n            SELECT s.year::TEXT AS label,\n                   SUM(s.revenue)::NUMERIC AS value\n            FROM sales s\n            JOIN products p ON p.id = s.product_id\n            "

/-- planner.py branch for `product_sales_trend`; raises when neither an
`isinstance(..., int)` product_id nor a non-blank product_name is given. -/
def branch_product_sales_trend (chart : String) (f : Filters) : Except String PlannedQuery :=
  match f.product_id.isinstInt, f.product_name.strOpt with
  | none, none => .error "product_sales_trend requires product_id or product_name"
  | pid, pn =>
    .ok { sql := selPST ++
                 whereSql ((yfytPart f).w ++
                           (match pid with
                            | some _ => ["s.product_id = :product_id"]
                            | none =>
                              match pn with
                              | some _ => ["p.name ILIKE :product_name"]
                              | none => [])) ++
                 tailGroupYear,
          params := (yfytPart f).ps ++
                    (match pid with
                     | some _ => [("product_id", f.product_id)]
                     | none =>
                       match pn with
                       | some s => [("product_name", .vStr (likePat s))]
                       | none => []),
          chart_type := chart, label_field := "label", value_field := "value" }

/-- the `SELECT p.category ... JOIN products` header of the by-category
templates -/
def selByCat : String :=
  "\n            SELECT p.category AS label,\n                   SUM(s.revenue)::NUMERIC AS value\n            FROM sales s\n            JOIN products p ON p.id = s.product_id\n            "

/-- the `GROUP BY p.category ...` tail of the by-category templates -/
def tailByCat : String :=
  "\n            GROUP BY p.category\n            ORDER BY value DESC\n        "

/-- planner.py branch for `sales_by_category`. -/
def branch_sales_by_category (chart : String) (f : Filters) : PlannedQuery :=
  { sql := selByCat ++ whereSql (yearOrRangePart f).w ++ tailByCat,
    params := (yearOrRangePart f).ps,
    chart_type := chart, label_field := "label", value_field := "value" }

/-- the resolved entity of `top_bottom_performers` (the
`entity not in ("product", "category")` test, guided by `dim0` when the
filter value is neither string) -/
def tbpEntity (f : Filters) (dim0 : String) : String :=
  match f.entity with
  | .vStr "product" => "product"
  | .vStr "category" => "category"
  | _ => if dim0 = "product" ∨ dim0 = "category" then dim0 else "product"

/-- the resolved order of `top_bottom_performers` (the
`order not in ("top", "bottom")` test) -/
def tbpOrder (f : Filters) : String :=
  match f.order with
  | .vStr "top" => "top"
  | .vStr "bottom" => "bottom"
  | _ => "top"

/-- `SELECT ` opening a template with an interpolated label expression -/
def selExpr : String := "\n            SELECT "

/-- the middle of the `top_bottom_performers` template, between the two
interpolated grouping expressions -/
def tbMid1 : String :=
  " AS label,\n                   SUM(s.revenue)::NUMERIC AS value\n            FROM sales s\n            JOIN products p ON p.id = s.product_id\n            "

def tbMid2 : String := "\n            GROUP BY "

def tbMid3 : String := "\n            ORDER BY value "

def tbTail : String := "\n            LIMIT :limit\n        "

/-- planner.py branch for `top_bottom_performers` (limit window [1,50],
default 5). -/
def branch_top_bottom (chart : String) (dim0 : String) (f : Filters) : PlannedQuery :=
  { sql := selExpr ++
           (if tbpEntity f dim0 = "category" then "p.category" else "p.name") ++
           tbMid1 ++
           whereSql (yearOrRangePart f).w ++
           tbMid2 ++
           (if tbpEntity f dim0 = "category" then "p.category" else "p.name") ++
           tbMid3 ++
           (if tbpOrder f = "top" then "DESC" else "ASC") ++
           tbTail,
    params := [("limit", resolveLimit f.limit 50 5)] ++ (yearOrRangePart f).ps,
    chart_type := chart, label_field := "label", value_field := "value" }

/-- the middle of the `sales_breakdown_for_year` template, between the two
interpolated grouping expressions -/
def bdMid : String :=
  " AS label,\n                   SUM(s.revenue)::NUMERIC AS value\n            FROM sales s\n            JOIN products p ON p.id = s.product_id\n            WHERE s.year = :year\n            GROUP BY "

def bdTail : String := "\n            ORDER BY value DESC\n        "

/-- planner.py branch for `sales_breakdown_for_year`; raises without an
`isinstance(..., int)` year. -/
def branch_breakdown (chart : String) (dim0 : String) (f : Filters) : Except String PlannedQuery :=
  match f.year.isinstInt with
  | none => .error "sales_breakdown_for_year requires filter.year"
  | some _ =>
    .ok { sql := selExpr ++
                 (if dim0 = "category" then "p.category" else "p.name") ++
                 bdMid ++
                 (if dim0 = "category" then "p.category" else "p.name") ++
                 bdTail,
          params := [("year", f.year)],
          chart_type := chart, label_field := "label", value_field := "value" }

/-- the `WITH yearly AS (...` header of the `sales_growth_analysis` template -/
def gSel : String :=
  "\n            WITH yearly AS (\n              SELECT s.year,\n                     SUM(s.revenue)::NUMERIC AS revenue\n              FROM sales s\n              "

/-- the line break between the growth template's join and where slots -/
def nl14 : String := "\n              "

/-- the `LAG`-difference tail of the `sales_growth_analysis` template -/
def gTail : String :=
  "\n              GROUP BY s.year\n            )\n            SELECT y.year::TEXT AS label,\n                   (y.revenue - LAG(y.revenue) OVER (ORDER BY y.year))::NUMERIC AS value\n            FROM yearly y\n            ORDER BY y.year ASC\n        "

/-- planner.py branch for `sales_growth_analysis`. -/
def branch_growth (chart : String) (f : Filters) : PlannedQuery :=
  { sql := gSel ++
           joinSql (f.category.truthy || (catPart f).jp) ++
           nl14 ++
           whereSql ((yfytPart f).w ++ (catPart f).w) ++
           gTail,
    params := (yfytPart f).ps ++ (catPart f).ps,
    chart_type := chart, label_field := "label", value_field := "value" }

/-- `if not isinstance(year_count, int) or year_count <= 0 or year_count > 20:
year_count = 3` -/
def resolveYearCount (v : Value) : Value :=
  match v.isinstInt with
  | some n => if n ≤ 0 ∨ 20 < n then .vInt 3 else v
  | none => .vInt 3

/-- the `extra_where` fragment of `multi_year_comparison` -/
def multiYearExtra (f : Filters) : String :=
  match f.category.strOpt with
  | some _ => "AND lower(p.category) = lower(:category)"
  | none => ""

/-- header of the averaged `multi_year_comparison` template -/
def myASel : String :=
  "\n                WITH max_year AS (SELECT MAX(year) AS y FROM sales),\n                     yearly AS (\n                       SELECT s.year,\n                              SUM(s.revenue)::NUMERIC AS revenue\n                       FROM sales s\n                       "

/-- the `:year_count` window condition of the averaged template -/
def myAMid : String :=
  "\n                       WHERE s.year >= (SELECT y FROM max_year) - :year_count + 1\n                       "

/-- tail of the averaged template (the quoted `avg` label) -/
def myATail : String :=
  "\n                       GROUP BY s.year\n                     )\n                SELECT " ++ sq ++ "avg" ++ sq ++
  "::TEXT AS label,\n                       AVG(revenue)::NUMERIC AS value\n                FROM yearly\n            "

/-- header of the per-year `multi_year_comparison` template -/
def myBSel : String :=
  "\n            WITH max_year AS (SELECT MAX(year) AS y FROM sales)\n            SELECT s.year::TEXT AS label,\n                   SUM(s.revenue)::NUMERIC AS value\n            FROM sales s\n            "

/-- the `:year_count` window condition of the per-year template -/
def myBMid : String :=
  "\n            WHERE s.year >= (SELECT y FROM max_year) - :year_count + 1\n            "

/-- tail of the per-year template -/
def myBTail : String :=
  "\n            GROUP BY s.year\n            ORDER BY s.year ASC\n        "

/-- planner.py branch for `multi_year_comparison`. -/
def branch_multi_year (chart : String) (f : Filters) : PlannedQuery :=
  { sql :=
      if f.average.truthy then
        myASel ++ joinSql (f.category.truthy || (catPart f).jp) ++ myAMid ++
        multiYearExtra f ++ myATail
      else
        myBSel ++ joinSql (f.category.truthy || (catPart f).jp) ++ myBMid ++
        multiYearExtra f ++ myBTail,
    params := [("year_count", resolveYearCount f.year_count)] ++
              (match f.category.strOpt with
               | some c => [("category", Value.vStr c)]
               | none => []),
    chart_type := chart, label_field := "label", value_field := "value" }

/-- planner.py branch for `clarification_required`: a constant SELECT whose
WHERE condition is FALSE and an empty parameter map. -/
def branch_clarification (chart : String) : PlannedQuery :=
  { sql := "SELECT 1::TEXT AS label, 0::NUMERIC AS value WHERE FALSE",
    params := [],
    chart_type := chart, label_field := "label", value_field := "value" }

/-- the `if isinstance(year, int)` single fragment of the two legacy branches -/
def yearOnlyPart (f : Filters) : Part :=
  match f.year.isinstInt with
  | some _ => { w := ["s.year = :year"], ps := [("year", f.year)] }
  | none => { }

/-- planner.py branch for `revenue_by_category`. -/
def branch_revenue_by_category (chart : String) (f : Filters) : PlannedQuery :=
  { sql := selByCat ++ whereSql (yearOnlyPart f).w ++ tailByCat,
    params := (yearOnlyPart f).ps,
    chart_type := chart, label_field := "label", value_field := "value" }

/-- planner.py branch for `top_products` (limit window [1,50], default 10). -/
def branch_top_products (chart : String) (f : Filters) : PlannedQuery :=
  { sql := selByProduct ++ whereSql (yearOnlyPart f).w ++ tailByProduct,
    params := [("limit", resolveLimit f.limit 50 10)] ++ (yearOnlyPart f).ps,
    chart_type := chart, label_field := "label", value_field := "value" }

/-- `chart = intent_payload.get("chart") or spec.default_chart` followed by
the membership check against `("line", "bar")`. -/
def resolveChart (c : Value) (sp : IntentSpec) : String :=
  match (if c.truthy then c else Value.vStr sp.default_chart) with
  | .vStr s => if s = "line" ∨ s = "bar" then s else sp.default_chart
  | _ => sp.default_chart

/-- `dimensions[0] if dimensions else list(spec.allowed_dimensions)[0]` -/
def dim0Of (dims : List String) (sp : IntentSpec) : String :=
  match dims with
  | d :: _ => d
  | [] => sp.allowed_dimensions.headD "year"

/-- planner.py: `plan_intent`.  Validation (`_validate_list`) raises on the
first unsupported metric/dimension; then one branch per intent name. -/
def plan_intent (p : IntentPayload) : Except String PlannedQuery :=
  match lookupIntent p.intent with
  | none => .error ("Unsupported intent: " ++ p.intent)
  | some spec =>
    match p.metrics.find? (fun v => !(spec.allowed_metrics.contains v)) with
    | some v => .error ("Unsupported metric: " ++ v)
    | none =>
      match p.dimensions.find? (fun v => !(spec.allowed_dimensions.contains v)) with
      | some v => .error ("Unsupported dimension: " ++ v)
      | none =>
        if p.intent = "sales_trend" ∨ p.intent = "sales_comparison" ∨ p.intent = "sales_trend_over_time" then
          .ok (branch_trend (resolveChart p.chart spec) p.filters)
        else if p.intent = "sales_comparison_by_year" then
          .ok (branch_comparison_by_year (resolveChart p.chart spec) p.filters)
        else if p.intent = "total_sales_for_period" then
          .ok (branch_total_sales (resolveChart p.chart spec) p.filters)
        else if p.intent = "sales_by_product" then
          .ok (branch_sales_by_product (resolveChart p.chart spec) p.filters)
        else if p.intent = "product_sales_trend" then
          branch_product_sales_trend (resolveChart p.chart spec) p.filters
        else if p.intent = "sales_by_category" then
          .ok (branch_sales_by_category (resolveChart p.chart spec) p.filters)
        else if p.intent = "top_bottom_performers" then
          .ok (branch_top_bottom (resolveChart p.chart spec) (dim0Of p.dimensions spec) p.filters)
        else if p.intent = "sales_breakdown_for_year" then
          branch_breakdown (resolveChart p.chart spec) (dim0Of p.dimensions spec) p.filters
        else if p.intent = "sales_growth_analysis" then
          .ok (branch_growth (resolveChart p.chart spec) p.filters)
        else if p.intent = "multi_year_comparison" then
          .ok (branch_multi_year (resolveChart p.chart spec) p.filters)
        else if p.intent = "clarification_required" then
          .ok (branch_clarification (resolveChart p.chart spec))
        else if p.intent = "revenue_by_category" then
          .ok (branch_revenue_by_category (resolveChart p.chart spec) p.filters)
        else if p.intent = "top_products" then
          .ok (branch_top_products (resolveChart p.chart spec) p.filters)
        else .error ("No planner mapping for intent: " ++ p.intent)

/-- a character that can be part of a `:name` bind-parameter name -/
def wordChar (c : Char) : Bool := c.isAlphanum || c = '_'

/-- Scan a template for `:name` bind parameters: a colon not preceded by a
colon or word character, followed by at least one word character, introduces
a parameter (so the `::TEXT` casts in the templates are not parameters).
The `blocked` flag records whether the previous character was such a
blocker. -/
def scanPH : List Char → Bool → List String
  | [], _ => []
  | c :: rest, blocked =>
    if c = ':' then
      if blocked ∨ (rest.takeWhile wordChar).isEmpty then scanPH rest true
      else ⟨rest.takeWhile wordChar⟩ :: scanPH rest true
    else scanPH rest (wordChar c)

/-- the set (as a list) of bind-parameter names of a template -/
def placeholderList (sql : String) : List String := scanPH sql.data false

/-- two lists of names contain the same set of names -/
def sameNames (a b : List String) : Bool :=
  a.all (b.contains ·) && b.all (a.contains ·)

/-- the parameter-name keys of a plan's `params` map -/
def paramKeys (q : PlannedQuery) : List String := q.params.map Prod.fst

/-- the keys of `params` are exactly the placeholders of `sql` -/
def paramKeysMatch (q : PlannedQuery) : Bool :=
  sameNames (paramKeys q) (placeholderList q.sql)

/-!  gemini_client.py: the rule-based extractor `_stub_parse` and its
pattern-scanning helpers.  The few regular expressions of the source are
translated into explicit scanners with `re.search` semantics (leftmost
match; greedy/lazy quantifiers as annotated). -/

/-- `s.strip(chars)` -/
def pyStripChars (cs : String) (s : String) : String :=
  ⟨stripL (fun c => cs.data.contains c) s.data⟩

/-- Python `s.split()` (split on whitespace runs, no empty parts) -/
def splitWSL : List Char → List (List Char)
  | [] => []
  | c :: rest =>
    if pyWSChar c then splitWSL rest
    else (c :: rest.takeWhile (fun d => !pyWSChar d)) ::
         splitWSL (rest.dropWhile (fun d => !pyWSChar d))
termination_by l => l.length
decreasing_by
  · simp only [List.length_cons]
    exact Nat.lt_succ_of_le (Nat.le_refl _)
  · simp only [List.length_cons]
    refine Nat.lt_succ_of_le ?_
    have h : ∀ (q : Char → Bool) (l : List Char), (l.dropWhile q).length ≤ l.length := by
      intro q l
      induction l with
      | nil => simp [List.dropWhile]
      | cons a t ih =>
        simp only [List.dropWhile]
        split
        · exact Nat.le_trans ih (Nat.le_succ _)
        · exact Nat.le_refl _
    exact h _ _

def splitWS (s : String) : List String := (splitWSL s.data).map (fun l => ⟨l⟩)

/-- Python `w.capitalize()`: first character upper-cased, rest lower-cased -/
def pyCapitalize (w : String) : String :=
  match w.data with
  | [] => ""
  | c :: rest => ⟨c.toUpper :: rest.map Char.toLower⟩

/-- Python `needle in hay` over the character list of `hay`. -/
def inL (n : List Char) : List Char → Bool
  | [] => n.isEmpty
  | c :: t => n.isPrefixOf (c :: t) || inL n t

/-- Python substring test `needle in hay`. -/
def strIn (needle hay : String) : Bool := inL needle.data hay.data

/-- try a pattern matcher at every position, leftmost first (`re.search`) -/
def scanFirst (m : List Char → Option α) : List Char → Option α
  | [] => m []
  | c :: rest =>
    match m (c :: rest) with
    | some r => some r
    | none => scanFirst m rest

/-- like `scanFirst` but the matcher also receives whether the previous
character is a word character (for patterns starting with `\b`) -/
def scanFirstB (m : Bool → List Char → Option α) : Bool → List Char → Option α
  | prevW, [] => m prevW []
  | prevW, c :: rest =>
    match m prevW (c :: rest) with
    | some r => some r
    | none => scanFirstB m (wordChar c) rest

/-- numeric value of a run of decimal digits (Python `int(...)`) -/
def digitsVal (l : List Char) : Int :=
  (l.foldl (fun a c => a * 10 + (c.toNat - 48)) 0 : Nat)

/-- match `20\d{2}` at the current position, returning the year and the rest -/
def year4 : List Char → Option (Int × List Char)
  | '2' :: '0' :: a :: b :: rest =>
    if a.isDigit && b.isDigit then
      some ((2000 + 10 * (a.toNat - 48) + (b.toNat - 48) : Nat), rest)
    else none
  | _ => none

/-- match a case-sensitive literal at the current position -/
def lit (s : String) (l : List Char) : Option (List Char) :=
  if s.data.isPrefixOf l then some (l.drop s.data.length) else none

/-- `\s+` at the current position (greedy; the following token of every use
site is not a whitespace character, so no backtracking is needed) -/
def ws1 (l : List Char) : Option (List Char) :=
  match l with
  | c :: _ => if pyWSChar c then some (l.dropWhile pyWSChar) else none
  | [] => none

/-- matcher for `(20\d{2})\s*[-–]\s*(20\d{2})` at a position -/
def mDash (l : List Char) : Option (Int × Int) :=
  match year4 l with
  | none => none
  | some (y1, r1) =>
    match r1.dropWhile pyWSChar with
    | d :: r3 =>
      if d = '-' || d = Char.ofNat 0x2013 then
        match year4 (r3.dropWhile pyWSChar) with
        | some (y2, _) => some (y1, y2)
        | none => none
      else none
    | [] => none

/-- one alternative of `(?:to|through|thru)\s+(20\d{2})` -/
def altTail (w : String) (y1 : Int) (r2 : List Char) : Option (Int × Int) :=
  match lit w r2 with
  | none => none
  | some r3 =>
    match ws1 r3 with
    | none => none
    | some r4 =>
      match year4 r4 with
      | some (y2, _) => some (y1, y2)
      | none => none

/-- matcher for `(20\d{2})\s+(?:to|through|thru)\s+(20\d{2})` at a position
(alternatives tried in source order) -/
def mToThrough (l : List Char) : Option (Int × Int) :=
  match year4 l with
  | none => none
  | some (y1, r1) =>
    match ws1 r1 with
    | none => none
    | some r2 =>
      match altTail "to" y1 r2 with
      | some r => some r
      | none =>
        match altTail "through" y1 r2 with
        | some r => some r
        | none => altTail "thru" y1 r2

/-- matcher for `between\s+(20\d{2})\s+and\s+(20\d{2})` at a position -/
def mBetween (l : List Char) : Option (Int × Int) :=
  match lit "between" l with
  | none => none
  | some r1 =>
    match ws1 r1 with
    | none => none
    | some r2 =>
      match year4 r2 with
      | none => none
      | some (y1, r3) =>
        match ws1 r3 with
        | none => none
        | some r4 =>
          match lit "and" r4 with
          | none => none
          | some r5 =>
            match ws1 r5 with
            | none => none
            | some r6 =>
              match year4 r6 with
              | some (y2, _) => some (y1, y2)
              | none => none

/-- matcher for `word\s+(20\d{2})` at a position (`from`/`to` fragments) -/
def mWordYear (wrd : String) (l : List Char) : Option Int :=
  match lit wrd l with
  | none => none
  | some r1 =>
    match ws1 r1 with
    | none => none
    | some r2 =>
      match year4 r2 with
      | some (y, _) => some y
      | none => none

/-- gemini_client.py: `_extract_year_range`. -/
def _extract_year_range (t : String) : Option Int × Option Int :=
  match scanFirst mDash t.data with
  | some (a, b) => (some a, some b)
  | none =>
    match scanFirst mToThrough t.data with
    | some (a, b) => (some a, some b)
    | none =>
      match scanFirst mBetween t.data with
      | some (a, b) => (some a, some b)
      | none =>
        (scanFirst (mWordYear "from") t.data, scanFirst (mWordYear "to") t.data)

/-- matcher for `top\s+(\d+)` at a position -/
def mTopN (l : List Char) : Option Int :=
  match lit "top" l with
  | none => none
  | some r1 =>
    match ws1 r1 with
    | none => none
    | some r2 =>
      if (r2.takeWhile Char.isDigit).isEmpty then none
      else some (digitsVal (r2.takeWhile Char.isDigit))

/-- gemini_client.py: `_extract_limit`. -/
def _extract_limit (t : String) : Option Int := scanFirst mTopN t.data

/-- `range(2015, 2031)` -/
def yearScanRange : List Nat := List.range' 2015 16

/-- gemini_client.py: `_extract_year` — the first (numerically smallest)
year of 2015..2030 occurring literally in the text. -/
def _extract_year (t : String) : Option Int :=
  (yearScanRange.find? (fun y => strIn (toString y) t)).map Int.ofNat

/-- gemini_client.py: `_extract_two_years`. -/
def _extract_two_years (t : String) : Option (List Int) :=
  if (sortedSet ((yearScanRange.filter (fun y => strIn (toString y) t)).map (fun y => (y : Int)))).length ≥ 2 then
    some ((sortedSet ((yearScanRange.filter (fun y => strIn (toString y) t)).map (fun y => (y : Int)))).take 2)
  else none

/-- gemini_client.py: `_mentions_comparison`. -/
def _mentions_comparison (text : String) : Bool :=
  [" vs ", " versus ", "compare ", "comparison"].any (fun k => strIn k (pyLower text))

/-- matcher for `\"([^\"]+)\"` at a position: a double quote, at least one
non-quote character, and a closing double quote -/
def mQuoted : List Char → Option (List Char)
  | '"' :: rest =>
    if (rest.takeWhile (fun d => !(d = '"'))).isEmpty then none
    else
      match rest.dropWhile (fun d => !(d = '"')) with
      | '"' :: _ => some (rest.takeWhile (fun d => !(d = '"')))
      | _ => none
  | _ => none

/-- match a literal case-insensitively (`re.IGNORECASE`) -/
def litCI (s : String) (l : List Char) : Option (List Char) :=
  if s.data.isPrefixOf (l.take s.data.length |>.map Char.toLower) then
    some (l.drop s.data.length)
  else none

/-- the character class `[\w &/\-]` of the category patterns -/
def catClass (c : Char) : Bool :=
  wordChar c || c = ' ' || c = '&' || c = '/' || c = '-'

/-- word-boundary test between a last-matched character and the rest -/
def boundaryAfter (lastW : Bool) (rest : List Char) : Bool :=
  match rest with
  | [] => lastW
  | c :: _ => lastW ≠ wordChar c

/-- tail of the lazy category patterns: `\s+category\b` -/
def mCatTail (l : List Char) : Option Unit :=
  match ws1 l with
  | none => none
  | some r1 =>
    match litCI "category" r1 with
    | none => none
    | some r2 => if boundaryAfter true r2 then some () else none

/-- the lazy group `([\w &/\-]+?)` followed by `\s+category\b`: starting from
the shortest non-empty prefix of class characters, accepted as soon as the
tail matches.  `acc` holds the group read so far, reversed. -/
def lazyGroupCat (acc : List Char) : List Char → Option (List Char)
  | [] => none
  | c :: rest =>
    if acc ≠ [] ∧ (mCatTail (c :: rest)).isSome then some acc.reverse
    else if catClass c then lazyGroupCat (c :: acc) rest
    else none

/-- `\s+` followed by the lazy group and tail; the greedy `\s+` backtracks
from its longest run because the group class itself contains the space -/
def wsThenLazy (k : Nat) (l : List Char) : Option (List Char) :=
  match k with
  | 0 => none
  | Nat.succ k' =>
    match lazyGroupCat [] (l.drop k) with
    | some g => some g
    | none => wsThenLazy k' l

/-- `\s+([\w &/\-]+?)\s+category\b` at a position -/
def lazyAfterWs (l : List Char) : Option (List Char) :=
  wsThenLazy (l.takeWhile pyWSChar).length l

/-- `in\s+the\s+([\w &/\-]+?)\s+category\b` from the current position -/
def mCatP1In (l : List Char) : Option (List Char) :=
  match litCI "in" l with
  | none => none
  | some r1 =>
    match ws1 r1 with
    | none => none
    | some r2 =>
      match litCI "the" r2 with
      | none => none
      | some r3 => lazyAfterWs r3

/-- `in\s+([\w &/\-]+?)\s+category\b` from the current position -/
def mCatP2In (l : List Char) : Option (List Char) :=
  match litCI "in" l with
  | none => none
  | some r1 => lazyAfterWs r1

/-- the optional greedy prefix `(?:only\s+)?` of the category patterns -/
def withOnly (core : List Char → Option (List Char)) (l : List Char) : Option (List Char) :=
  match
    (match litCI "only" l with
     | none => none
     | some r1 =>
       match ws1 r1 with
       | none => none
       | some r2 => core r2)
  with
  | some g => some g
  | none => core l

/-- matcher for `\b(?:only\s+)?in\s+the\s+([\w &/\-]+?)\s+category\b`
(the optional `only\s+` is tried first, as a greedy option) -/
def mCatP1 (prevW : Bool) (l : List Char) : Option (List Char) :=
  if prevW then none else withOnly mCatP1In l

/-- matcher for `\b(?:only\s+)?in\s+([\w &/\-]+?)\s+category\b` -/
def mCatP2 (prevW : Bool) (l : List Char) : Option (List Char) :=
  if prevW then none else withOnly mCatP2In l

/-- matcher for `\bcategory\s*[:=]?\s*([\w &/\-]+)\b`: greedy group of class
characters, shrunk from the right until the trailing word boundary holds -/
def mCatP3 (prevW : Bool) (l : List Char) : Option (List Char) :=
  if prevW then none
  else
    match litCI "category" l with
    | none => none
    | some r1 =>
      match
        (match (r1.dropWhile pyWSChar) with
         | c :: r2 => if c = ':' || c = '=' then r2.dropWhile pyWSChar else r1.dropWhile pyWSChar
         | [] => r1.dropWhile pyWSChar)
      with
      | r3 =>
        match ((r3.takeWhile catClass).reverse.dropWhile (fun c => !wordChar c)).reverse with
        | [] => none
        | g => some g

/-- gemini_client.py: `_normalize_category`. -/
def _normalize_category (raw : String) : Option String :=
  if raw = "" then none
  else
    if pyStripChars (" .,:;()[]" ++ "\x7b\x7d") (pyStripChars ("\"" ++ sq) (pyStrip raw)) = "" then none
    else some (String.intercalate " "
      ((splitWS (pyStripChars (" .,:;()[]" ++ "\x7b\x7d") (pyStripChars ("\"" ++ sq) (pyStrip raw)))).map pyCapitalize))

/-- gemini_client.py: `_extract_category` — the three patterns in order, on
the stripped question, case-insensitively. -/
def _extract_category (text : String) : Option String :=
  match scanFirstB mCatP1 false (pyStrip text).data with
  | some g => _normalize_category ⟨g⟩
  | none =>
    match scanFirstB mCatP2 false (pyStrip text).data with
    | some g => _normalize_category ⟨g⟩
    | none =>
      match scanFirstB mCatP3 false (pyStrip text).data with
      | some g => _normalize_category ⟨g⟩
      | none => none

/-- `_base_filters()` of `_stub_parse` -/
def _base_filters (category : Option String) : Filters :=
  match category with
  | some c => { category := .vStr c }
  | none => { }

/-- rule 1 of `_stub_parse`: explicit by-category phrasing -/
def ruleByCategoryKw (q : String) (category : Option String) : Option IntentPayload :=
  if ["by category", "per category", "group by category", "grouped by category", "breakdown by category"].any (fun k => strIn k q) then
    some { intent := "sales_by_category", metrics := ["total_revenue"], dimensions := ["category"],
           filters := (match _extract_year q with
                       | some y => { _base_filters category with year := .vInt y }
                       | none => _base_filters category),
           chart := .vStr "bar" }
  else none

/-- rules 2 and 3 of `_stub_parse` share this payload shape -/
def tbPayload (q : String) (category : Option String) (limit : Int) (ord : String) : IntentPayload :=
  { intent := "top_bottom_performers", metrics := ["total_revenue"],
    dimensions := [if strIn "category" q || strIn "categories" q then "category" else "product"],
    filters :=
      (match _extract_year q with
       | some y =>
         { _base_filters category with
             limit := .vInt limit, order := .vStr ord,
             entity := .vStr (if strIn "category" q || strIn "categories" q then "category" else "product"),
             year := .vInt y }
       | none =>
         { _base_filters category with
             limit := .vInt limit, order := .vStr ord,
             entity := .vStr (if strIn "category" q || strIn "categories" q then "category" else "product") }),
    chart := .vStr "bar" }

/-- rule 2 of `_stub_parse`: top/best-selling performers
(`_extract_limit(q) or 10`) -/
def ruleTop (q : String) (category : Option String) : Option IntentPayload :=
  if (strIn "top" q || strIn "best-selling" q || strIn "best selling" q) &&
     (strIn "product" q || strIn "products" q || strIn "category" q || strIn "categories" q) then
    some (tbPayload q category
      (match _extract_limit q with
       | some n => if n = 0 then 10 else n
       | none => 10) "top")
  else none

/-- rule 3 of `_stub_parse`: worst/lowest/bottom performers
(`_extract_limit(q) or 5`) -/
def ruleWorst (q : String) (category : Option String) : Option IntentPayload :=
  if ["worst", "lowest", "bottom"].any (fun k => strIn k q) &&
     (strIn "product" q || strIn "products" q || strIn "category" q || strIn "categories" q) then
    some (tbPayload q category
      (match _extract_limit q with
       | some n => if n = 0 then 5 else n
       | none => 5) "bottom")
  else none

/-- rule 4 of `_stub_parse`: breakdown keywords, only when a year was
detected (otherwise the cascade falls through) -/
def ruleBreakdown (q : String) (category : Option String) : Option IntentPayload :=
  if ["break down", "breakdown", "category-wise", "category wise"].any (fun k => strIn k q) then
    match _extract_year q with
    | some y =>
      some { intent := "sales_breakdown_for_year", metrics := ["total_revenue"],
             dimensions := [if strIn "category" q || strIn "categories" q then "category" else "product"],
             filters := { _base_filters category with year := .vInt y },
             chart := .vStr "bar" }
    | none => none
  else none

/-- rule 5/6 of `_stub_parse`: a detected year range, refined by a quoted
product name with trend words, then growth words, else a generic trend -/
def ruleRange (q question : String) (category : Option String) : Option IntentPayload :=
  match _extract_year_range q with
  | (none, none) => none
  | (yf, yt) =>
    some (
      if (scanFirst mQuoted question.data).isSome &&
         (strIn "trend" q || strIn "over time" q || strIn "year by year" q) then
        { intent := "product_sales_trend", metrics := ["total_revenue"], dimensions := ["year"],
          filters := { _base_filters category with
              year_from := (match yf with | some a => .vInt a | none => .vNone),
              year_to := (match yt with | some b => .vInt b | none => .vNone),
              product_name := .vStr (pyStrip ⟨((scanFirst mQuoted question.data).getD [])⟩) },
          chart := .vStr "line" }
      else if ["year-over-year", "year over year", "yoy", "growth", "declin"].any (fun k => strIn k q) then
        { intent := "sales_growth_analysis", metrics := ["total_revenue"], dimensions := ["year"],
          filters := { _base_filters category with
              year_from := (match yf with | some a => .vInt a | none => .vNone),
              year_to := (match yt with | some b => .vInt b | none => .vNone) },
          chart := .vStr "line" }
      else
        { intent := "sales_trend_over_time", metrics := ["total_revenue"], dimensions := ["year"],
          filters := { _base_filters category with
              year_from := (match yf with | some a => .vInt a | none => .vNone),
              year_to := (match yt with | some b => .vInt b | none => .vNone) },
          chart := .vStr "line" })

/-- the `sales_comparison_by_year` payload of rules 7 and 8 -/
def cmpPayload (category : Option String) (years : List Int) : IntentPayload :=
  { intent := "sales_comparison_by_year", metrics := ["total_revenue"], dimensions := ["year"],
    filters := { _base_filters category with years := .vList (years.map Value.vInt) },
    chart := .vStr "bar" }

/-- rule 7 of `_stub_parse`: two years plus comparison language -/
def ruleCompare (q question : String) (category : Option String) : Option IntentPayload :=
  match _extract_two_years q with
  | some years => if _mentions_comparison question then some (cmpPayload category years) else none
  | none => none

/-- rule 8 of `_stub_parse`: two years plus gap/difference language -/
def ruleGap (q : String) (category : Option String) : Option IntentPayload :=
  match _extract_two_years q with
  | some years =>
    if ["gap", "difference", "increase", "decrease"].any (fun k => strIn k q) then
      some (cmpPayload category years)
    else none
  | none => none

/-- rule 9 of `_stub_parse`: "last 3 years" -/
def ruleLast3 (q : String) (category : Option String) : Option IntentPayload :=
  if ["last 3 years", "last three years"].any (fun k => strIn k q) then
    some { intent := "multi_year_comparison", metrics := ["total_revenue"], dimensions := ["year"],
           filters := { _base_filters category with year_count := .vInt 3 },
           chart := .vStr "bar" }
  else none

/-- rule 10 of `_stub_parse`: "average" with "year(ly)" -/
def ruleAverage (q : String) (category : Option String) : Option IntentPayload :=
  if strIn "average" q && (strIn "year" q || strIn "yearly" q) then
    some { intent := "multi_year_comparison", metrics := ["total_revenue"], dimensions := ["year"],
           filters := { _base_filters category with year_count := .vInt 5, average := .vBool true },
           chart := .vStr "bar" }
  else none

/-- rule 11 of `_stub_parse`: total phrasing, only with a detected year -/
def ruleTotal (q : String) (category : Option String) : Option IntentPayload :=
  if ["total sales", "total revenue", "how much did we sell", "how much revenue"].any (fun k => strIn k q) then
    match _extract_year q with
    | some y =>
      some { intent := "total_sales_for_period", metrics := ["total_revenue"], dimensions := ["year"],
             filters := { _base_filters category with year := .vInt y },
             chart := .vStr "bar" }
    | none => none
  else none

/-- rule 12 of `_stub_parse`: cross-product ranking phrasing -/
def ruleByProduct (q : String) (category : Option String) : Option IntentPayload :=
  if ["which products", "by product", "across all products", "rank products"].any (fun k => strIn k q) then
    some { intent := "sales_by_product", metrics := ["total_revenue"], dimensions := ["product"],
           filters := (match _extract_year q with
                       | some y => { _base_filters category with year := .vInt y }
                       | none => _base_filters category),
           chart := .vStr "bar" }
  else none

/-- rule 13 of `_stub_parse`: cross-category phrasing -/
def ruleAcrossCats (q : String) (category : Option String) : Option IntentPayload :=
  if ["category generates", "between categories", "categories performing", "different categories"].any (fun k => strIn k q) then
    some { intent := "sales_by_category", metrics := ["total_revenue"], dimensions := ["category"],
           filters := (match _extract_year q with
                       | some y => { _base_filters category with year := .vInt y }
                       | none => _base_filters category),
           chart := .vStr "bar" }
  else none

/-- rule 14 of `_stub_parse`: vague overview phrasing (note: ignores the
category filter, as in the source) -/
def ruleOverview (q : String) : Option IntentPayload :=
  if ["overall", "overview", "how are we doing", "sales performance", "business performing"].any (fun k => strIn k q) then
    some { intent := "clarification_required", metrics := ["total_revenue"], dimensions := ["year"],
           filters := { }, chart := .vStr "line" }
  else none

/-- gemini_client.py: `_stub_parse` — the ordered first-match-wins cascade,
ending in the default trend intent. -/
def _stub_parse (question : String) : IntentPayload :=
  ((((((((((((ruleByCategoryKw (pyLower question) (_extract_category question)).orElse
    (fun _ => ruleTop (pyLower question) (_extract_category question))).orElse
    (fun _ => ruleWorst (pyLower question) (_extract_category question))).orElse
    (fun _ => ruleBreakdown (pyLower question) (_extract_category question))).orElse
    (fun _ => ruleRange (pyLower question) question (_extract_category question))).orElse
    (fun _ => ruleCompare (pyLower question) question (_extract_category question))).orElse
    (fun _ => ruleGap (pyLower question) (_extract_category question))).orElse
    (fun _ => ruleLast3 (pyLower question) (_extract_category question))).orElse
    (fun _ => ruleAverage (pyLower question) (_extract_category question))).orElse
    (fun _ => ruleTotal (pyLower question) (_extract_category question))).orElse
    (fun _ => ruleByProduct (pyLower question) (_extract_category question))).orElse
    (fun _ => ruleAcrossCats (pyLower question) (_extract_category question))).orElse
    (fun _ => ruleOverview (pyLower question))
  |>.getD
    { intent := "sales_trend_over_time", metrics := ["total_revenue"], dimensions := ["year"],
      filters := _base_filters (_extract_category question), chart := .vStr "line" }

/-!  routes.py: `_to_float` and the chart-response assembly.

A Python float value is modelled by `FVal`: either a finite IEEE-754 double
(carried as the exact rational it denotes) or an infinity; NaN does not
arise in the conversions below.  CPython converts an `int` to `float` with
correct rounding (round half to even) and raises `OverflowError` when the
rounded value is infinite, while `float(Decimal(...))` goes through the
string constructor and yields an infinity instead of raising. -/

inductive FVal where
  | fin (q : ℚ)
  | inf
  | ninf
deriving DecidableEq

/-- `2^e` as a rational, for an integer exponent -/
def pow2 (e : Int) : ℚ :=
  if 0 ≤ e then ((2 ^ e.toNat : ℕ) : ℚ) else 1 / ((2 ^ (-e).toNat : ℕ) : ℚ)

/-- the floor of a rational (via flooring integer division) -/
def qfloor (x : ℚ) : Int := Int.fdiv x.num x.den

/-- the absolute value of a rational -/
def qabs (x : ℚ) : ℚ := if x < 0 then -x else x

/-- the nearest integer, ties to even -/
def roundHalfEvenZ (x : ℚ) : Int :=
  if x - qfloor x < 1/2 then qfloor x
  else if 1/2 < x - qfloor x then qfloor x + 1
  else if qfloor x % 2 = 0 then qfloor x else qfloor x + 1

/-- `Nat.log2` with explicit fuel, so that it evaluates by reduction -/
def log2F : Nat → Nat → Nat
  | 0, _ => 0
  | fuel + 1, n => if 2 ≤ n then log2F fuel (n / 2) + 1 else 0

/-- `⌊log₂ n⌋` for naturals (0 for `n = 0`) -/
def nlog2 (n : Nat) : Nat := log2F n n

/-- `⌊log₂ q⌋` for a positive rational -/
def qlog2floor (q : ℚ) : Int :=
  let e0 : Int := (nlog2 q.num.natAbs : Int) - (nlog2 q.den : Int)
  if q < pow2 e0 then e0 - 1 else if q < pow2 (e0 + 1) then e0 else e0 + 1

/-- Round a rational to the nearest IEEE-754 double (53-bit significand,
exponent range down to subnormals), `none` on overflow. -/
def roundQ (q : ℚ) : Option ℚ :=
  if q = 0 then some 0
  else
    let s : ℚ := if q < 0 then -1 else 1
    let a := qabs q
    let e := qlog2floor a
    if e < -1022 then
      some (s * (roundHalfEvenZ (a * pow2 1074) : ℚ) * pow2 (-1074))
    else
      let m := roundHalfEvenZ (a * pow2 (52 - e))
      if m = 2 ^ 53 then
        if 1023 < e + 1 then none else some (s * pow2 (e + 1))
      else if 1023 < e then none
      else some (s * (m : ℚ) * pow2 (e - 52))

/-- CPython `float(n)` for an `int`: correctly rounded, `none` when it would
overflow (`OverflowError`). -/
def float_of_int (n : Int) : Option ℚ := roundQ (n : ℚ)

/-- CPython `float(Decimal(...))`: correctly rounded, an infinity on
overflow (the conversion goes through the string constructor). -/
def float_of_dec (q : ℚ) : FVal :=
  match roundQ q with
  | some r => .fin r
  | none => if q < 0 then .ninf else .inf

/-- A Python value reaching `_to_float`: `None`, an `int`, a `float`, a
`Decimal` (carried as its exact rational value), or any other object
together with the result of its `float(...)` conversion (`none` when that
conversion raises, e.g. an unparsable string). -/
inductive PyVal where
  | pnone
  | pint (n : Int)
  | pfloat (x : FVal)
  | pdec (q : ℚ)
  | pobj (conv : Option FVal)
deriving DecidableEq

/-- routes.py: `_to_float`.  The `None`/`float`/`int`/`Decimal` tests run
before the `try`-guarded generic conversion, so an `OverflowError` from
`float(v)` on a large `int` propagates instead of being caught. -/
def _to_float (v : PyVal) : Except Unit FVal :=
  match v with
  | .pnone => .ok (.fin 0)
  | .pfloat x => .ok x
  | .pint n =>
    match float_of_int n with
    | some r => .ok (.fin r)
    | none => .error ()
  | .pdec q => .ok (float_of_dec q)
  | .pobj conv =>
    match conv with
    | some x => .ok x
    | none => .ok (.fin 0)

/-- `r.get(k)` on a result row (`None` when the column is absent) -/
def rowGet (r : List (String × PyVal)) (k : String) : PyVal :=
  ((r.find? (fun kv => kv.1 = k)).map (·.2)).getD .pnone

/-- model-level `str(...)` of a row value, used for chart labels -/
def pyStrPy : PyVal → String
  | .pnone => "None"
  | .pint n => toString n
  | .pfloat (.fin q) => toString q
  | .pfloat .inf => "inf"
  | .pfloat .ninf => "-inf"
  | .pdec q => toString q
  | .pobj _ => "object"

/-- routes.py: the `for r in rows:` loop of `query`, building `labels` and
`values`; an exception from `_to_float` propagates. -/
def assembleRows (labelF valueF : String) :
    List (List (String × PyVal)) → Except Unit (List String × List FVal)
  | [] => .ok ([], [])
  | r :: rest =>
    match _to_float (rowGet r valueF) with
    | .error e => .error e
    | .ok v =>
      match assembleRows labelF valueF rest with
      | .error e => .error e
      | .ok (ls, vs) => .ok (pyStrPy (rowGet r labelF) :: ls, v :: vs)

/-- routes.py / schemas.py: `QueryResponse` with a single dataset -/
structure Dataset where
  label : String
  data : List FVal

structure QueryResponse where
  title : String
  chartType : String
  labels : List String
  datasets : List Dataset

/-- routes.py: the tail of `query` — an empty label list yields the
empty-but-valid chart response. -/
def respOf (title chartType : String) (labels : List String) (values : List FVal) : QueryResponse :=
  if labels.isEmpty then
    { title := title, chartType := chartType, labels := [], datasets := [] }
  else
    { title := title, chartType := chartType, labels := labels,
      datasets := [{ label := "total_revenue", data := values }] }

/-- Modelled from the spec: the SQL executor is an external collaborator
(the database engine), not code of this repository.  A constant `SELECT`
without a `FROM` clause evaluates its target list over a single implicit
row and keeps it only when the `WHERE` condition holds, independently of
the database contents; the `clarification_required` template is such a
query with condition `FALSE`. -/
def run_const_select (D : Type) (_db : D) (row : List (String × PyVal)) (cond : Bool) :
    List (List (String × PyVal)) :=
  if cond then [row] else []

/-!  Auxiliary notions used by the theorems below. -/

/-- the head of the list (if any) can neither extend an identifier nor
start a bind parameter -/
def okHead (b : List Char) : Bool :=
  match b with
  | [] => true
  | c :: _ => !wordChar c && !(c = ':')

/-- the last character exists and can neither be part of an identifier nor
start a bind parameter -/
def okLast (a : List Char) : Bool :=
  match a.getLast? with
  | none => false
  | some c => !wordChar c && !(c = ':')

/-- bind parameters of a list of WHERE fragments -/
def flatScanW (ws : List String) : List String :=
  ws.flatMap (fun w => scanPH w.data false)

/-- Two filter values that agree, or are both strings that are non-blank
(non-empty after stripping whitespace) — such values may differ only in
their text. -/
def StrSim (v w : Value) : Prop :=
  v = w ∨ (∃ s t, v = .vStr s ∧ w = .vStr t ∧ pyStrip s ≠ "" ∧ pyStrip t ≠ "")

/-- Two `categories` values that agree, or are both lists whose entries are
pairwise `StrSim`. -/
def CatsSim (v w : Value) : Prop :=
  v = w ∨ (∃ l m, v = .vList l ∧ w = .vList m ∧ List.Forall₂ StrSim l m)

/-- Two filter maps that differ only in the text of non-blank user-supplied
string filter values (`category`, entries of `categories`, `product_name`). -/
def SimFilters (f g : Filters) : Prop :=
  f.years = g.years ∧ f.year_from = g.year_from ∧ f.year_to = g.year_to ∧
  f.year = g.year ∧ f.year_count = g.year_count ∧
  StrSim f.category g.category ∧ CatsSim f.categories g.categories ∧
  f.product_id = g.product_id ∧ StrSim f.product_name g.product_name ∧
  f.limit = g.limit ∧ f.order = g.order ∧ f.entity = g.entity ∧ f.average = g.average

/-- Two intent payloads that differ only in the text of non-blank
user-supplied string filter values. -/
def SimPayload (p q : IntentPayload) : Prop :=
  p.intent = q.intent ∧ p.metrics = q.metrics ∧ p.dimensions = q.dimensions ∧
  SimFilters p.filters q.filters ∧ p.chart = q.chart

/-!  ## Lemmas about the bind-parameter scanner

The scanner distributes over the concatenations used to assemble the
templates, provided no identifier or `:name` token can straddle the seam:
either the right side starts with a character that can neither extend an
identifier nor open a parameter, or the left side ends with one. -/

theorem data_append (s t : String) : (s ++ t).data = s.data ++ t.data := rfl

theorem takeWhile_append_eq (p : Char → Bool) (a b : List Char)
    (h : b.takeWhile p = [] ∨ ¬(∀ x ∈ a, p x = true)) :
    (a ++ b).takeWhile p = a.takeWhile p := by
  rw [List.takeWhile_append]
  split
  · rename_i hlen
    have ha : a.takeWhile p = a :=
      (List.takeWhile_prefix p).eq_of_length hlen
    have hall : ∀ x ∈ a, p x = true := by
      intro x hx
      exact List.mem_takeWhile_imp (ha ▸ hx)
    rcases h with h | h
    · rw [ha, h, List.append_nil]
    · exact absurd hall h
  · rfl

theorem okHead_append (a b : List Char) (ha : a ≠ []) : okHead (a ++ b) = okHead a := by
  cases a with
  | nil => exact absurd rfl ha
  | cons c a' => rfl

theorem scanPH_cons (c : Char) (rest : List Char) (s : Bool) :
    scanPH (c :: rest) s =
      if c = ':' then
        if s = true ∨ (rest.takeWhile wordChar).isEmpty = true then scanPH rest true
        else (⟨rest.takeWhile wordChar⟩ : String) :: scanPH rest true
      else scanPH rest (wordChar c) := rfl

theorem scanPH_nonblocking (b : List Char) (hb : okHead b = true) (s : Bool) :
    scanPH b s = scanPH b false := by
  cases b with
  | nil => rfl
  | cons c rest =>
    have hc : ¬(c = ':') := by
      simp only [okHead, Bool.and_eq_true, Bool.not_eq_true', decide_eq_false_iff_not] at hb
      exact hb.2
    rw [scanPH_cons, scanPH_cons, if_neg hc, if_neg hc]

theorem scanPH_append_okHead (b : List Char) (hb : okHead b = true) :
    ∀ (a : List Char) (s : Bool), scanPH (a ++ b) s = scanPH a s ++ scanPH b false := by
  have hbtw : b.takeWhile wordChar = [] := by
    cases b with
    | nil => rfl
    | cons c rest =>
      have hc : wordChar c = false := by
        simp only [okHead, Bool.and_eq_true, Bool.not_eq_true'] at hb
        exact hb.1
      simp [List.takeWhile_cons, hc]
  intro a
  induction a with
  | nil =>
    intro s
    rw [List.nil_append]
    exact scanPH_nonblocking b hb s
  | cons c a' ih =>
    intro s
    rw [List.cons_append, scanPH_cons, scanPH_cons]
    by_cases hc : c = ':'
    · rw [if_pos hc, if_pos hc]
      have ht : (a' ++ b).takeWhile wordChar = a'.takeWhile wordChar :=
        takeWhile_append_eq _ _ _ (Or.inl hbtw)
      rw [ht]
      by_cases hcond : (s = true ∨ (a'.takeWhile wordChar).isEmpty = true)
      · rw [if_pos hcond, if_pos hcond, ih]
      · rw [if_neg hcond, if_neg hcond, ih, List.cons_append]
    · rw [if_neg hc, if_neg hc]
      exact ih (wordChar c)

theorem scanPH_append_okLast (a : List Char) (ha : okLast a = true) :
    ∀ (b : List Char) (s : Bool), scanPH (a ++ b) s = scanPH a s ++ scanPH b false := by
  induction a with
  | nil => simp [okLast] at ha
  | cons c a' ih =>
    intro b s
    cases a' with
    | nil =>
      have hc : wordChar c = false ∧ ¬(c = ':') := by
        simp only [okLast, List.getLast?_singleton, Bool.and_eq_true, Bool.not_eq_true',
          decide_eq_false_iff_not] at ha
        exact ha
      rw [List.singleton_append, scanPH_cons, scanPH_cons, if_neg hc.2, if_neg hc.2]
      simp only [hc.1]
      rfl
    | cons d a'' =>
      have ha' : okLast (d :: a'') = true := by
        simpa only [okLast, List.getLast?_cons_cons] using ha
      have hlast : ∃ x ∈ (d :: a''), wordChar x = false := by
        have hne : (d :: a'') ≠ [] := by simp
        refine ⟨(d :: a'').getLast hne, List.getLast_mem hne, ?_⟩
        have hgl := List.getLast?_eq_getLast_of_ne_nil hne
        simp only [okLast, hgl, Bool.and_eq_true, Bool.not_eq_true'] at ha'
        exact ha'.1
      rw [List.cons_append, scanPH_cons, scanPH_cons]
      by_cases hc : c = ':'
      · rw [if_pos hc, if_pos hc]
        have ht : ((d :: a'') ++ b).takeWhile wordChar = (d :: a'').takeWhile wordChar := by
          refine takeWhile_append_eq _ _ _ (Or.inr ?_)
          intro hall
          rcases hlast with ⟨x, hx, hxf⟩
          rw [hall x hx] at hxf
          cases hxf
        rw [ht]
        by_cases hcond : (s = true ∨ ((d :: a'').takeWhile wordChar).isEmpty = true)
        · rw [if_pos hcond, if_pos hcond, ih ha' b true]
        · rw [if_neg hcond, if_neg hcond, ih ha' b true, List.cons_append]
      · rw [if_neg hc, if_neg hc]
        exact ih ha' b (wordChar c)

theorem scan_joinAnd (ws : List String) :
    scanPH (joinAnd ws).data false = flatScanW ws := by
  induction ws with
  | nil => rfl
  | cons w rest ih =>
    cases rest with
    | nil => simp [joinAnd, flatScanW]
    | cons w2 rest2 =>
      show scanPH (w ++ " AND " ++ joinAnd (w2 :: rest2)).data false = _
      rw [data_append, data_append, List.append_assoc]
      rw [scanPH_append_okHead (" AND ".data ++ (joinAnd (w2 :: rest2)).data)
        (by rw [okHead_append _ _ (by decide)]; decide)]
      rw [scanPH_append_okLast (" AND ".data) (by decide)]
      rw [ih, show scanPH " AND ".data false = ([] : List String) from rfl]
      simp [flatScanW]

theorem scan_whereSql (ws : List String) :
    scanPH (whereSql ws).data false = flatScanW ws := by
  cases ws with
  | nil => rfl
  | cons w rest =>
    show scanPH (whereSql (w :: rest)).data false = _
    rw [whereSql, if_neg (by simp)]
    rw [data_append, scanPH_append_okLast ("WHERE ".data) (by decide)]
    rw [scan_joinAnd]
    rfl

theorem sameNames_refl (l : List String) : sameNames l l = true := by
  simp only [sameNames, Bool.and_eq_true, List.all_eq_true]
  constructor <;> (intro x hx; simpa using hx)

theorem sameNames_of_perm (l₁ l₂ : List String) (h : l₁.Perm l₂) : sameNames l₁ l₂ = true := by
  simp only [sameNames, Bool.and_eq_true, List.all_eq_true]
  constructor
  · intro x hx
    simpa using h.mem_iff.mp (by simpa using hx)
  · intro x hx
    simpa using h.mem_iff.mpr (by simpa using hx)

/-!  ## The WHERE fragments of every builder bind exactly the parameters
they declare -/

theorem keys_yfytPart (f : Filters) :
    flatScanW (yfytPart f).w = (yfytPart f).ps.map Prod.fst := by
  unfold yfytPart
  cases hf : f.year_from.isinstInt <;> cases ht : f.year_to.isinstInt <;> rfl

theorem keys_yearOrRangePart (f : Filters) :
    flatScanW (yearOrRangePart f).w = (yearOrRangePart f).ps.map Prod.fst := by
  unfold yearOrRangePart
  cases hy : f.year.isinstInt
  · exact keys_yfytPart f
  · rfl

theorem keys_pidPart (f : Filters) :
    flatScanW (pidPart f).w = (pidPart f).ps.map Prod.fst := by
  unfold pidPart
  cases hp : f.product_id.isinstInt <;> rfl

theorem keys_catPart (f : Filters) :
    flatScanW (catPart f).w = (catPart f).ps.map Prod.fst := by
  unfold catPart
  cases hc : f.category.strOpt <;> rfl

theorem keys_catOrCatsPart (f : Filters) :
    flatScanW (catOrCatsPart f).w = (catOrCatsPart f).ps.map Prod.fst := by
  unfold catOrCatsPart
  cases hc : f.category.strOpt
  · cases hl : f.categories.isinstList
    · rfl
    · rename_i l
      simp only []
      by_cases h1 : l.isEmpty = true
      · rw [if_pos h1]
        rfl
      · rw [if_neg h1]
        by_cases h2 : (cleanedCats l).isEmpty = true
        · rw [if_pos h2]
          rfl
        · rw [if_neg h2]
          rfl
  · rfl

theorem keys_pnPart (f : Filters) :
    flatScanW (pnPart f).w = (pnPart f).ps.map Prod.fst := by
  unfold pnPart
  cases hp : f.product_name.strOpt <;> rfl

theorem keys_yearsOrRangePart (f : Filters) :
    flatScanW (yearsOrRangePart f).w = (yearsOrRangePart f).ps.map Prod.fst := by
  unfold yearsOrRangePart
  cases hy : f.years.isinstList
  · exact keys_yfytPart f
  · rename_i l
    simp only []
    by_cases h1 : l.isEmpty = true
    · rw [if_pos h1]
      exact keys_yfytPart f
    · rw [if_neg h1]
      rfl

theorem keys_yearsSortedPart (f : Filters) :
    flatScanW (yearsSortedPart f).w = (yearsSortedPart f).ps.map Prod.fst := by
  unfold yearsSortedPart
  cases hs : sortedSet ((match f.year_from.isinstInt with | some a => [a] | none => []) ++
      (match f.year_to.isinstInt with | some b => [b] | none => [])) <;> rfl

theorem keys_yearsOrSortedPart (f : Filters) :
    flatScanW (yearsOrSortedPart f).w = (yearsOrSortedPart f).ps.map Prod.fst := by
  unfold yearsOrSortedPart
  cases hy : f.years.isinstList
  · exact keys_yearsSortedPart f
  · rename_i l
    simp only []
    by_cases h1 : l.isEmpty = true
    · rw [if_pos h1]
      exact keys_yearsSortedPart f
    · rw [if_neg h1]
      rfl

theorem keys_yearOnlyPart (f : Filters) :
    flatScanW (yearOnlyPart f).w = (yearOnlyPart f).ps.map Prod.fst := by
  unfold yearOnlyPart
  cases hy : f.year.isinstInt <;> rfl

/-!  ## Scanning the assembled templates -/

theorem scan_joinSql (j : Bool) : scanPH (joinSql j).data false = [] := by
  cases j <;> rfl

/-- scanning a three-segment template `header ++ where ++ tail` -/
theorem scan_template3 (s1 : String) (ws : List String) (s3 : String)
    (h1 : okLast s1.data = true) (h3 : okHead s3.data = true) :
    scanPH (s1 ++ whereSql ws ++ s3).data false =
      scanPH s1.data false ++ (flatScanW ws ++ scanPH s3.data false) := by
  rw [data_append, data_append, List.append_assoc]
  rw [scanPH_append_okLast s1.data h1]
  rw [scanPH_append_okHead s3.data h3]
  rw [scan_whereSql]

/-- scanning a five-segment template `header ++ join ++ break ++ where ++ tail` -/
theorem scan_template5 (s1 sJ s2 : String) (ws : List String) (s3 : String)
    (h1 : okLast s1.data = true) (h2a : s2.data ≠ []) (h2 : okHead s2.data = true)
    (h2L : okLast s2.data = true) (h3 : okHead s3.data = true) :
    scanPH (s1 ++ sJ ++ s2 ++ whereSql ws ++ s3).data false =
      scanPH s1.data false ++
        (scanPH sJ.data false ++
          (scanPH s2.data false ++ (flatScanW ws ++ scanPH s3.data false))) := by
  rw [data_append, data_append, data_append, data_append]
  simp only [List.append_assoc]
  rw [scanPH_append_okLast s1.data h1]
  rw [scanPH_append_okHead (s2.data ++ ((whereSql ws).data ++ s3.data))
    (by rw [okHead_append _ _ h2a]; exact h2)]
  rw [scanPH_append_okLast s2.data h2L]
  rw [scanPH_append_okHead s3.data h3]
  rw [scan_whereSql]

theorem flatScanW_append (a b : List String) :
    flatScanW (a ++ b) = flatScanW a ++ flatScanW b :=
  List.flatMap_append a b _

theorem sameNames_iff (l₁ l₂ : List String) (h : ∀ x, x ∈ l₁ ↔ x ∈ l₂) :
    sameNames l₁ l₂ = true := by
  simp only [sameNames, Bool.and_eq_true, List.all_eq_true]
  constructor
  · intro x hx
    simpa using (h x).mp (by simpa using hx)
  · intro x hx
    simpa using (h x).mpr (by simpa using hx)

/-!  ## Every branch's parameter keys match its template's placeholders -/

theorem pkm_trend (c : String) (f : Filters) :
    paramKeysMatch (branch_trend c f) = true := by
  unfold paramKeysMatch paramKeys placeholderList branch_trend
  rw [scan_template5 selYearSum _ nl12 _ tailGroupYear (by decide) (by decide) (by decide)
    (by decide) (by decide)]
  rw [scan_joinSql, show scanPH selYearSum.data false = [] from rfl,
    show scanPH nl12.data false = [] from rfl,
    show scanPH tailGroupYear.data false = [] from rfl]
  simp only [List.nil_append, List.append_nil, flatScanW_append, List.map_append,
    keys_yearsOrRangePart, keys_pidPart, keys_catOrCatsPart, keys_pnPart, List.append_assoc]
  exact sameNames_refl _

theorem pkm_comparison_by_year (c : String) (f : Filters) :
    paramKeysMatch (branch_comparison_by_year c f) = true := by
  unfold paramKeysMatch paramKeys placeholderList branch_comparison_by_year
  rw [scan_template5 selYearSum _ nl12 _ tailGroupYear (by decide) (by decide) (by decide)
    (by decide) (by decide)]
  rw [scan_joinSql, show scanPH selYearSum.data false = [] from rfl,
    show scanPH nl12.data false = [] from rfl,
    show scanPH tailGroupYear.data false = [] from rfl]
  simp only [List.nil_append, List.append_nil, flatScanW_append, List.map_append,
    keys_yearsOrSortedPart, keys_pidPart, keys_catPart, keys_pnPart, List.append_assoc]
  exact sameNames_refl _

theorem pkm_total_sales (c : String) (f : Filters) :
    paramKeysMatch (branch_total_sales c f) = true := by
  unfold paramKeysMatch paramKeys placeholderList branch_total_sales
  rw [scan_template5 selLabelTotal _ nl12 _ tailTotal (by decide) (by decide) (by decide)
    (by decide) (by decide)]
  rw [scan_joinSql, show scanPH selLabelTotal.data false = ["label"] from rfl,
    show scanPH nl12.data false = [] from rfl,
    show scanPH tailTotal.data false = [] from rfl]
  simp only [List.nil_append, List.append_nil, flatScanW_append, List.map_append,
    keys_yearOrRangePart, keys_pidPart, keys_catPart, keys_pnPart, List.append_assoc]
  refine sameNames_iff _ _ ?_
  intro x
  simp only [List.mem_append, List.mem_singleton, List.map_cons, List.map_nil, List.mem_cons,
    List.not_mem_nil, or_false]
  tauto

theorem pkm_sales_by_product (c : String) (f : Filters) :
    paramKeysMatch (branch_sales_by_product c f) = true := by
  unfold paramKeysMatch paramKeys placeholderList branch_sales_by_product
  rw [scan_template3 selByProduct _ tailByProduct (by decide) (by decide)]
  rw [show scanPH selByProduct.data false = [] from rfl,
    show scanPH tailByProduct.data false = ["limit"] from rfl]
  simp only [List.nil_append, List.append_nil, flatScanW_append, List.map_append,
    keys_yearOrRangePart, keys_catPart, List.append_assoc, List.map_cons, List.map_nil]
  refine sameNames_iff _ _ ?_
  intro x
  simp only [List.mem_append, List.mem_singleton, List.mem_cons, List.not_mem_nil, or_false]
  tauto

theorem pkm_product_sales_trend (c : String) (f : Filters) (q : PlannedQuery)
    (h : branch_product_sales_trend c f = .ok q) : paramKeysMatch q = true := by
  unfold branch_product_sales_trend at h
  cases hp : f.product_id.isinstInt <;> cases hn : f.product_name.strOpt <;>
    rw [hp, hn] at h <;> simp only [] at h
  · cases h
  all_goals
    (cases h
     unfold paramKeysMatch paramKeys placeholderList
     rw [scan_template3 selPST _ tailGroupYear (by decide) (by decide)]
     rw [show scanPH selPST.data false = [] from rfl,
       show scanPH tailGroupYear.data false = [] from rfl]
     simp only [List.nil_append, List.append_nil, flatScanW_append, List.map_append,
       keys_yfytPart, List.append_assoc]
     exact sameNames_refl _)

theorem pkm_sales_by_category (c : String) (f : Filters) :
    paramKeysMatch (branch_sales_by_category c f) = true := by
  unfold paramKeysMatch paramKeys placeholderList branch_sales_by_category
  rw [scan_template3 selByCat _ tailByCat (by decide) (by decide)]
  rw [show scanPH selByCat.data false = [] from rfl,
    show scanPH tailByCat.data false = [] from rfl]
  simp only [List.nil_append, List.append_nil, keys_yearOrRangePart]
  exact sameNames_refl _

theorem pkm_top_bottom (c dim0 : String) (f : Filters) :
    paramKeysMatch (branch_top_bottom c dim0 f) = true := by
  unfold paramKeysMatch paramKeys placeholderList branch_top_bottom
  have hsplit :
      scanPH (selExpr ++ (if tbpEntity f dim0 = "category" then "p.category" else "p.name") ++
        tbMid1 ++ whereSql (yearOrRangePart f).w ++ tbMid2 ++
        (if tbpEntity f dim0 = "category" then "p.category" else "p.name") ++ tbMid3 ++
        (if tbpOrder f = "top" then "DESC" else "ASC") ++ tbTail).data false =
      flatScanW (yearOrRangePart f).w ++ ["limit"] := by
    rw [data_append, data_append, data_append, data_append, data_append, data_append,
      data_append, data_append]
    simp only [List.append_assoc]
    rw [scanPH_append_okLast selExpr.data (by decide)]
    rw [scanPH_append_okHead (tbMid1.data ++ _) (by rw [okHead_append _ _ (by decide)]; decide)]
    rw [scanPH_append_okLast tbMid1.data (by decide)]
    rw [scanPH_append_okHead (tbMid2.data ++ _) (by rw [okHead_append _ _ (by decide)]; decide)]
    rw [scanPH_append_okLast tbMid2.data (by decide)]
    rw [scanPH_append_okHead (tbMid3.data ++ _) (by rw [okHead_append _ _ (by decide)]; decide)]
    rw [scanPH_append_okLast tbMid3.data (by decide)]
    rw [scanPH_append_okHead tbTail.data (by decide)]
    rw [scan_whereSql]
    rw [show scanPH selExpr.data false = [] from rfl,
      show scanPH tbMid1.data false = [] from rfl,
      show scanPH tbMid2.data false = [] from rfl,
      show scanPH tbMid3.data false = [] from rfl,
      show scanPH tbTail.data false = ["limit"] from rfl]
    have hE : scanPH (if tbpEntity f dim0 = "category" then "p.category" else "p.name").data
        false = [] := by
      by_cases hc : tbpEntity f dim0 = "category"
      · rw [if_pos hc]
        rfl
      · rw [if_neg hc]
        rfl
    have hO : scanPH (if tbpOrder f = "top" then "DESC" else "ASC").data false = [] := by
      by_cases hc : tbpOrder f = "top"
      · rw [if_pos hc]
        rfl
      · rw [if_neg hc]
        rfl
    rw [hE, hO]
    simp
  rw [hsplit]
  simp only [List.map_append, keys_yearOrRangePart, List.map_cons, List.map_nil]
  refine sameNames_iff _ _ ?_
  intro x
  simp only [List.mem_append, List.mem_singleton, List.mem_cons, List.not_mem_nil, or_false]
  tauto

theorem pkm_breakdown (c dim0 : String) (f : Filters) (q : PlannedQuery)
    (h : branch_breakdown c dim0 f = .ok q) : paramKeysMatch q = true := by
  unfold branch_breakdown at h
  cases hy : f.year.isinstInt <;> rw [hy] at h <;> simp only [] at h
  · cases h
  · cases h
    unfold paramKeysMatch paramKeys placeholderList
    have hD : scanPH (if dim0 = "category" then "p.category" else "p.name").data false = [] := by
      by_cases hc : dim0 = "category"
      · rw [if_pos hc]
        rfl
      · rw [if_neg hc]
        rfl
    rw [data_append, data_append, data_append, data_append]
    simp only [List.append_assoc]
    rw [scanPH_append_okLast selExpr.data (by decide)]
    rw [scanPH_append_okHead (bdMid.data ++ _) (by rw [okHead_append _ _ (by decide)]; decide)]
    rw [scanPH_append_okLast bdMid.data (by decide)]
    rw [scanPH_append_okHead bdTail.data (by decide)]
    rw [show scanPH selExpr.data false = [] from rfl,
      show scanPH bdMid.data false = ["year"] from rfl,
      show scanPH bdTail.data false = [] from rfl, hD]
    simp [sameNames]

theorem pkm_growth (c : String) (f : Filters) :
    paramKeysMatch (branch_growth c f) = true := by
  unfold paramKeysMatch paramKeys placeholderList branch_growth
  rw [scan_template5 gSel _ nl14 _ gTail (by decide) (by decide) (by decide)
    (by decide) (by decide)]
  rw [scan_joinSql, show scanPH gSel.data false = [] from rfl,
    show scanPH nl14.data false = [] from rfl,
    show scanPH gTail.data false = [] from rfl]
  simp only [List.nil_append, List.append_nil, flatScanW_append, List.map_append,
    keys_yfytPart, keys_catPart, List.append_assoc]
  exact sameNames_refl _

theorem pkm_multi_year (c : String) (f : Filters) :
    paramKeysMatch (branch_multi_year c f) = true := by
  unfold paramKeysMatch paramKeys placeholderList branch_multi_year
  have hE : scanPH (multiYearExtra f).data false =
      ((match f.category.strOpt with
        | some cc => [("category", Value.vStr cc)]
        | none => []) : List (String × Value)).map Prod.fst := by
    unfold multiYearExtra
    cases hc : f.category.strOpt <;> rfl
  by_cases hA : f.average.truthy = true
  · rw [if_pos hA]
    rw [data_append, data_append, data_append, data_append]
    simp only [List.append_assoc]
    rw [scanPH_append_okLast myASel.data (by decide)]
    rw [scanPH_append_okHead (myAMid.data ++ _) (by rw [okHead_append _ _ (by decide)]; decide)]
    rw [scanPH_append_okLast myAMid.data (by decide)]
    rw [scanPH_append_okHead myATail.data (by decide)]
    rw [scan_joinSql, hE,
      show scanPH myASel.data false = [] from rfl,
      show scanPH myAMid.data false = ["year_count"] from rfl,
      show scanPH myATail.data false = [] from rfl]
    simp only [List.nil_append, List.append_nil, List.map_append, List.map_cons, List.map_nil,
      List.singleton_append]
    exact sameNames_refl _
  · rw [if_neg hA]
    rw [data_append, data_append, data_append, data_append]
    simp only [List.append_assoc]
    rw [scanPH_append_okLast myBSel.data (by decide)]
    rw [scanPH_append_okHead (myBMid.data ++ _) (by rw [okHead_append _ _ (by decide)]; decide)]
    rw [scanPH_append_okLast myBMid.data (by decide)]
    rw [scanPH_append_okHead myBTail.data (by decide)]
    rw [scan_joinSql, hE,
      show scanPH myBSel.data false = [] from rfl,
      show scanPH myBMid.data false = ["year_count"] from rfl,
      show scanPH myBTail.data false = [] from rfl]
    simp only [List.nil_append, List.append_nil, List.map_append, List.map_cons, List.map_nil,
      List.singleton_append]
    exact sameNames_refl _

theorem pkm_clarification (c : String) :
    paramKeysMatch (branch_clarification c) = true := rfl

theorem pkm_revenue_by_category (c : String) (f : Filters) :
    paramKeysMatch (branch_revenue_by_category c f) = true := by
  unfold paramKeysMatch paramKeys placeholderList branch_revenue_by_category
  rw [scan_template3 selByCat _ tailByCat (by decide) (by decide)]
  rw [show scanPH selByCat.data false = [] from rfl,
    show scanPH tailByCat.data false = [] from rfl]
  simp only [List.nil_append, List.append_nil, keys_yearOnlyPart]
  exact sameNames_refl _

theorem pkm_top_products (c : String) (f : Filters) :
    paramKeysMatch (branch_top_products c f) = true := by
  unfold paramKeysMatch paramKeys placeholderList branch_top_products
  rw [scan_template3 selByProduct _ tailByProduct (by decide) (by decide)]
  rw [show scanPH selByProduct.data false = [] from rfl,
    show scanPH tailByProduct.data false = ["limit"] from rfl]
  simp only [List.nil_append, List.append_nil, keys_yearOnlyPart, List.map_append,
    List.map_cons, List.map_nil]
  refine sameNames_iff _ _ ?_
  intro x
  simp only [List.mem_append, List.mem_singleton, List.mem_cons, List.not_mem_nil, or_false]
  tauto

/-!  ## Reduction of `plan_intent` on each supported intent name -/

theorem plan_red_sales_trend (m d : List String) (f : Filters) (c : Value)
    (hm : m.find? (fun v => !(["total_revenue"].contains v)) = none)
    (hd : d.find? (fun v => !(["year"].contains v)) = none) :
    plan_intent ⟨"sales_trend", m, d, f, c⟩ =
      Except.ok (branch_trend (resolveChart c ⟨"sales_trend", ["total_revenue"], ["year"], "line"⟩) f) := by
  unfold plan_intent
  rw [show lookupIntent "sales_trend" =
    some ⟨"sales_trend", ["total_revenue"], ["year"], "line"⟩ from rfl]
  simp only []
  rw [hm]
  simp only []
  rw [hd]
  simp only []
  rw [if_pos (Or.inl trivial)]

theorem plan_red_sales_comparison (m d : List String) (f : Filters) (c : Value)
    (hm : m.find? (fun v => !(["total_revenue"].contains v)) = none)
    (hd : d.find? (fun v => !(["year"].contains v)) = none) :
    plan_intent ⟨"sales_comparison", m, d, f, c⟩ =
      Except.ok (branch_trend (resolveChart c ⟨"sales_comparison", ["total_revenue"], ["year"], "bar"⟩) f) := by
  unfold plan_intent
  rw [show lookupIntent "sales_comparison" =
    some ⟨"sales_comparison", ["total_revenue"], ["year"], "bar"⟩ from rfl]
  simp only []
  rw [hm]
  simp only []
  rw [hd]
  simp only []
  rw [if_pos (Or.inr (Or.inl trivial))]

theorem plan_red_sales_trend_over_time (m d : List String) (f : Filters) (c : Value)
    (hm : m.find? (fun v => !(["total_revenue"].contains v)) = none)
    (hd : d.find? (fun v => !(["year"].contains v)) = none) :
    plan_intent ⟨"sales_trend_over_time", m, d, f, c⟩ =
      Except.ok (branch_trend (resolveChart c ⟨"sales_trend_over_time", ["total_revenue"], ["year"], "line"⟩) f) := by
  unfold plan_intent
  rw [show lookupIntent "sales_trend_over_time" =
    some ⟨"sales_trend_over_time", ["total_revenue"], ["year"], "line"⟩ from rfl]
  simp only []
  rw [hm]
  simp only []
  rw [hd]
  simp only []
  rw [if_pos (Or.inr (Or.inr trivial))]

theorem plan_red_sales_comparison_by_year (m d : List String) (f : Filters) (c : Value)
    (hm : m.find? (fun v => !(["total_revenue"].contains v)) = none)
    (hd : d.find? (fun v => !(["year"].contains v)) = none) :
    plan_intent ⟨"sales_comparison_by_year", m, d, f, c⟩ =
      Except.ok (branch_comparison_by_year (resolveChart c ⟨"sales_comparison_by_year", ["total_revenue"], ["year"], "bar"⟩) f) := by
  unfold plan_intent
  rw [show lookupIntent "sales_comparison_by_year" =
    some ⟨"sales_comparison_by_year", ["total_revenue"], ["year"], "bar"⟩ from rfl]
  simp only []
  rw [hm]
  simp only []
  rw [hd]
  simp only []
  rw [if_neg (by decide)]
  rw [if_pos (trivial)]

theorem plan_red_total_sales_for_period (m d : List String) (f : Filters) (c : Value)
    (hm : m.find? (fun v => !(["total_revenue"].contains v)) = none)
    (hd : d.find? (fun v => !(["year"].contains v)) = none) :
    plan_intent ⟨"total_sales_for_period", m, d, f, c⟩ =
      Except.ok (branch_total_sales (resolveChart c ⟨"total_sales_for_period", ["total_revenue"], ["year"], "bar"⟩) f) := by
  unfold plan_intent
  rw [show lookupIntent "total_sales_for_period" =
    some ⟨"total_sales_for_period", ["total_revenue"], ["year"], "bar"⟩ from rfl]
  simp only []
  rw [hm]
  simp only []
  rw [hd]
  simp only []
  rw [if_neg (by decide), if_neg (by decide)]
  rw [if_pos (trivial)]

theorem plan_red_sales_by_product (m d : List String) (f : Filters) (c : Value)
    (hm : m.find? (fun v => !(["total_revenue"].contains v)) = none)
    (hd : d.find? (fun v => !(["product"].contains v)) = none) :
    plan_intent ⟨"sales_by_product", m, d, f, c⟩ =
      Except.ok (branch_sales_by_product (resolveChart c ⟨"sales_by_product", ["total_revenue"], ["product"], "bar"⟩) f) := by
  unfold plan_intent
  rw [show lookupIntent "sales_by_product" =
    some ⟨"sales_by_product", ["total_revenue"], ["product"], "bar"⟩ from rfl]
  simp only []
  rw [hm]
  simp only []
  rw [hd]
  simp only []
  rw [if_neg (by decide), if_neg (by decide), if_neg (by decide)]
  rw [if_pos (trivial)]

theorem plan_red_product_sales_trend (m d : List String) (f : Filters) (c : Value)
    (hm : m.find? (fun v => !(["total_revenue"].contains v)) = none)
    (hd : d.find? (fun v => !(["year"].contains v)) = none) :
    plan_intent ⟨"product_sales_trend", m, d, f, c⟩ =
      branch_product_sales_trend (resolveChart c ⟨"product_sales_trend", ["total_revenue"], ["year"], "line"⟩) f := by
  unfold plan_intent
  rw [show lookupIntent "product_sales_trend" =
    some ⟨"product_sales_trend", ["total_revenue"], ["year"], "line"⟩ from rfl]
  simp only []
  rw [hm]
  simp only []
  rw [hd]
  simp only []
  rw [if_neg (by decide), if_neg (by decide), if_neg (by decide), if_neg (by decide)]
  rw [if_pos (trivial)]

theorem plan_red_sales_by_category (m d : List String) (f : Filters) (c : Value)
    (hm : m.find? (fun v => !(["total_revenue"].contains v)) = none)
    (hd : d.find? (fun v => !(["category"].contains v)) = none) :
    plan_intent ⟨"sales_by_category", m, d, f, c⟩ =
      Except.ok (branch_sales_by_category (resolveChart c ⟨"sales_by_category", ["total_revenue"], ["category"], "bar"⟩) f) := by
  unfold plan_intent
  rw [show lookupIntent "sales_by_category" =
    some ⟨"sales_by_category", ["total_revenue"], ["category"], "bar"⟩ from rfl]
  simp only []
  rw [hm]
  simp only []
  rw [hd]
  simp only []
  rw [if_neg (by decide), if_neg (by decide), if_neg (by decide), if_neg (by decide), if_neg (by decide)]
  rw [if_pos (trivial)]

theorem plan_red_top_bottom_performers (m d : List String) (f : Filters) (c : Value)
    (hm : m.find? (fun v => !(["total_revenue"].contains v)) = none)
    (hd : d.find? (fun v => !(["product", "category"].contains v)) = none) :
    plan_intent ⟨"top_bottom_performers", m, d, f, c⟩ =
      Except.ok (branch_top_bottom (resolveChart c ⟨"top_bottom_performers", ["total_revenue"], ["product", "category"], "bar"⟩) (dim0Of d ⟨"top_bottom_performers", ["total_revenue"], ["product", "category"], "bar"⟩) f) := by
  unfold plan_intent
  rw [show lookupIntent "top_bottom_performers" =
    some ⟨"top_bottom_performers", ["total_revenue"], ["product", "category"], "bar"⟩ from rfl]
  simp only []
  rw [hm]
  simp only []
  rw [hd]
  simp only []
  rw [if_neg (by decide), if_neg (by decide), if_neg (by decide), if_neg (by decide), if_neg (by decide), if_neg (by decide)]
  rw [if_pos (trivial)]

theorem plan_red_sales_breakdown_for_year (m d : List String) (f : Filters) (c : Value)
    (hm : m.find? (fun v => !(["total_revenue"].contains v)) = none)
    (hd : d.find? (fun v => !(["product", "category"].contains v)) = none) :
    plan_intent ⟨"sales_breakdown_for_year", m, d, f, c⟩ =
      branch_breakdown (resolveChart c ⟨"sales_breakdown_for_year", ["total_revenue"], ["product", "category"], "bar"⟩) (dim0Of d ⟨"sales_breakdown_for_year", ["total_revenue"], ["product", "category"], "bar"⟩) f := by
  unfold plan_intent
  rw [show lookupIntent "sales_breakdown_for_year" =
    some ⟨"sales_breakdown_for_year", ["total_revenue"], ["product", "category"], "bar"⟩ from rfl]
  simp only []
  rw [hm]
  simp only []
  rw [hd]
  simp only []
  rw [if_neg (by decide), if_neg (by decide), if_neg (by decide), if_neg (by decide), if_neg (by decide), if_neg (by decide), if_neg (by decide)]
  rw [if_pos (trivial)]

theorem plan_red_sales_growth_analysis (m d : List String) (f : Filters) (c : Value)
    (hm : m.find? (fun v => !(["total_revenue"].contains v)) = none)
    (hd : d.find? (fun v => !(["year"].contains v)) = none) :
    plan_intent ⟨"sales_growth_analysis", m, d, f, c⟩ =
      Except.ok (branch_growth (resolveChart c ⟨"sales_growth_analysis", ["total_revenue"], ["year"], "line"⟩) f) := by
  unfold plan_intent
  rw [show lookupIntent "sales_growth_analysis" =
    some ⟨"sales_growth_analysis", ["total_revenue"], ["year"], "line"⟩ from rfl]
  simp only []
  rw [hm]
  simp only []
  rw [hd]
  simp only []
  rw [if_neg (by decide), if_neg (by decide), if_neg (by decide), if_neg (by decide), if_neg (by decide), if_neg (by decide), if_neg (by decide), if_neg (by decide)]
  rw [if_pos (trivial)]

theorem plan_red_multi_year_comparison (m d : List String) (f : Filters) (c : Value)
    (hm : m.find? (fun v => !(["total_revenue"].contains v)) = none)
    (hd : d.find? (fun v => !(["year"].contains v)) = none) :
    plan_intent ⟨"multi_year_comparison", m, d, f, c⟩ =
      Except.ok (branch_multi_year (resolveChart c ⟨"multi_year_comparison", ["total_revenue"], ["year"], "bar"⟩) f) := by
  unfold plan_intent
  rw [show lookupIntent "multi_year_comparison" =
    some ⟨"multi_year_comparison", ["total_revenue"], ["year"], "bar"⟩ from rfl]
  simp only []
  rw [hm]
  simp only []
  rw [hd]
  simp only []
  rw [if_neg (by decide), if_neg (by decide), if_neg (by decide), if_neg (by decide), if_neg (by decide), if_neg (by decide), if_neg (by decide), if_neg (by decide), if_neg (by decide)]
  rw [if_pos (trivial)]

theorem plan_red_clarification_required (m d : List String) (f : Filters) (c : Value)
    (hm : m.find? (fun v => !(["total_revenue"].contains v)) = none)
    (hd : d.find? (fun v => !(["year"].contains v)) = none) :
    plan_intent ⟨"clarification_required", m, d, f, c⟩ =
      Except.ok (branch_clarification (resolveChart c ⟨"clarification_required", ["total_revenue"], ["year"], "line"⟩)) := by
  unfold plan_intent
  rw [show lookupIntent "clarification_required" =
    some ⟨"clarification_required", ["total_revenue"], ["year"], "line"⟩ from rfl]
  simp only []
  rw [hm]
  simp only []
  rw [hd]
  simp only []
  rw [if_neg (by decide), if_neg (by decide), if_neg (by decide), if_neg (by decide), if_neg (by decide), if_neg (by decide), if_neg (by decide), if_neg (by decide), if_neg (by decide), if_neg (by decide)]
  rw [if_pos (trivial)]

theorem plan_red_revenue_by_category (m d : List String) (f : Filters) (c : Value)
    (hm : m.find? (fun v => !(["total_revenue"].contains v)) = none)
    (hd : d.find? (fun v => !(["category"].contains v)) = none) :
    plan_intent ⟨"revenue_by_category", m, d, f, c⟩ =
      Except.ok (branch_revenue_by_category (resolveChart c ⟨"revenue_by_category", ["total_revenue"], ["category"], "bar"⟩) f) := by
  unfold plan_intent
  rw [show lookupIntent "revenue_by_category" =
    some ⟨"revenue_by_category", ["total_revenue"], ["category"], "bar"⟩ from rfl]
  simp only []
  rw [hm]
  simp only []
  rw [hd]
  simp only []
  rw [if_neg (by decide), if_neg (by decide), if_neg (by decide), if_neg (by decide), if_neg (by decide), if_neg (by decide), if_neg (by decide), if_neg (by decide), if_neg (by decide), if_neg (by decide), if_neg (by decide)]
  rw [if_pos (trivial)]

theorem plan_red_top_products (m d : List String) (f : Filters) (c : Value)
    (hm : m.find? (fun v => !(["total_revenue"].contains v)) = none)
    (hd : d.find? (fun v => !(["product"].contains v)) = none) :
    plan_intent ⟨"top_products", m, d, f, c⟩ =
      Except.ok (branch_top_products (resolveChart c ⟨"top_products", ["total_revenue"], ["product"], "bar"⟩) f) := by
  unfold plan_intent
  rw [show lookupIntent "top_products" =
    some ⟨"top_products", ["total_revenue"], ["product"], "bar"⟩ from rfl]
  simp only []
  rw [hm]
  simp only []
  rw [hd]
  simp only []
  rw [if_neg (by decide), if_neg (by decide), if_neg (by decide), if_neg (by decide), if_neg (by decide), if_neg (by decide), if_neg (by decide), if_neg (by decide), if_neg (by decide), if_neg (by decide), if_neg (by decide), if_neg (by decide)]
  rw [if_pos (trivial)]

/-!  ## Dispatching a successful plan to its branch -/

theorem plan_err_unsupported (p : IntentPayload) (h : lookupIntent p.intent = none) :
    plan_intent p = .error ("Unsupported intent: " ++ p.intent) := by
  unfold plan_intent
  rw [h]

theorem plan_err_metric (p : IntentPayload) (sp : IntentSpec) (v : String)
    (hL : lookupIntent p.intent = some sp)
    (hm : p.metrics.find? (fun x => !(sp.allowed_metrics.contains x)) = some v) :
    plan_intent p = .error ("Unsupported metric: " ++ v) := by
  unfold plan_intent
  rw [hL]
  simp only []
  rw [hm]

theorem plan_err_dimension (p : IntentPayload) (sp : IntentSpec) (v : String)
    (hL : lookupIntent p.intent = some sp)
    (hm : p.metrics.find? (fun x => !(sp.allowed_metrics.contains x)) = none)
    (hd : p.dimensions.find? (fun x => !(sp.allowed_dimensions.contains x)) = some v) :
    plan_intent p = .error ("Unsupported dimension: " ++ v) := by
  unfold plan_intent
  rw [hL]
  simp only []
  rw [hm]
  simp only []
  rw [hd]

theorem lookup_inv (n : String) (sp : IntentSpec) (h : lookupIntent n = some sp) :
    ∃ pr ∈ INTENTS, pr.1 = n ∧ pr.2 = sp := by
  unfold lookupIntent at h
  rcases hf : INTENTS.find? (fun pr => pr.1 = n) with _ | pr
  · rw [hf] at h
    cases h
  · rw [hf] at h
    injection h with h
    refine ⟨pr, List.mem_of_find?_eq_some hf, ?_, h⟩
    have hs := List.find?_some hf
    simpa using hs

theorem plan_ok_dispatch (p : IntentPayload) (q : PlannedQuery) (h : plan_intent p = .ok q) :
    (p.intent = "sales_trend" ∧ q = branch_trend (resolveChart p.chart ⟨"sales_trend", ["total_revenue"], ["year"], "line"⟩) p.filters) ∨
    (p.intent = "sales_comparison" ∧ q = branch_trend (resolveChart p.chart ⟨"sales_comparison", ["total_revenue"], ["year"], "bar"⟩) p.filters) ∨
    (p.intent = "revenue_by_category" ∧ q = branch_revenue_by_category (resolveChart p.chart ⟨"revenue_by_category", ["total_revenue"], ["category"], "bar"⟩) p.filters) ∨
    (p.intent = "top_products" ∧ q = branch_top_products (resolveChart p.chart ⟨"top_products", ["total_revenue"], ["product"], "bar"⟩) p.filters) ∨
    (p.intent = "sales_comparison_by_year" ∧ q = branch_comparison_by_year (resolveChart p.chart ⟨"sales_comparison_by_year", ["total_revenue"], ["year"], "bar"⟩) p.filters) ∨
    (p.intent = "sales_trend_over_time" ∧ q = branch_trend (resolveChart p.chart ⟨"sales_trend_over_time", ["total_revenue"], ["year"], "line"⟩) p.filters) ∨
    (p.intent = "total_sales_for_period" ∧ q = branch_total_sales (resolveChart p.chart ⟨"total_sales_for_period", ["total_revenue"], ["year"], "bar"⟩) p.filters) ∨
    (p.intent = "sales_by_product" ∧ q = branch_sales_by_product (resolveChart p.chart ⟨"sales_by_product", ["total_revenue"], ["product"], "bar"⟩) p.filters) ∨
    (p.intent = "product_sales_trend" ∧ branch_product_sales_trend (resolveChart p.chart ⟨"product_sales_trend", ["total_revenue"], ["year"], "line"⟩) p.filters = Except.ok q) ∨
    (p.intent = "sales_by_category" ∧ q = branch_sales_by_category (resolveChart p.chart ⟨"sales_by_category", ["total_revenue"], ["category"], "bar"⟩) p.filters) ∨
    (p.intent = "top_bottom_performers" ∧ q = branch_top_bottom (resolveChart p.chart ⟨"top_bottom_performers", ["total_revenue"], ["product", "category"], "bar"⟩) (dim0Of p.dimensions ⟨"top_bottom_performers", ["total_revenue"], ["product", "category"], "bar"⟩) p.filters) ∨
    (p.intent = "sales_breakdown_for_year" ∧ branch_breakdown (resolveChart p.chart ⟨"sales_breakdown_for_year", ["total_revenue"], ["product", "category"], "bar"⟩) (dim0Of p.dimensions ⟨"sales_breakdown_for_year", ["total_revenue"], ["product", "category"], "bar"⟩) p.filters = Except.ok q) ∨
    (p.intent = "sales_growth_analysis" ∧ q = branch_growth (resolveChart p.chart ⟨"sales_growth_analysis", ["total_revenue"], ["year"], "line"⟩) p.filters) ∨
    (p.intent = "clarification_required" ∧ q = branch_clarification (resolveChart p.chart ⟨"clarification_required", ["total_revenue"], ["year"], "line"⟩)) ∨
    (p.intent = "multi_year_comparison" ∧ q = branch_multi_year (resolveChart p.chart ⟨"multi_year_comparison", ["total_revenue"], ["year"], "bar"⟩) p.filters) := by
  obtain ⟨i, m, d, f, c⟩ := p
  rcases hL : lookupIntent i with _ | sp
  · rw [plan_err_unsupported ⟨i, m, d, f, c⟩ hL] at h
    simp at h
  · rcases hm : m.find? (fun x => !(sp.allowed_metrics.contains x)) with _ | v
    · rcases hd : d.find? (fun x => !(sp.allowed_dimensions.contains x)) with _ | v
      · obtain ⟨pr, hmem, hn, hsp⟩ := lookup_inv i sp hL
        subst hn
        subst hsp
        simp only [INTENTS, List.mem_cons, List.not_mem_nil, or_false] at hmem
        rcases hmem with h1 | h1 | h1 | h1 | h1 | h1 | h1 | h1 | h1 | h1 | h1 | h1 | h1 | h1 | h1
        · subst h1
          simp only [] at h hm hd ⊢
          rw [plan_red_sales_trend m d f c hm hd] at h
          injection h with h
          exact Or.inl (⟨trivial, h.symm⟩)
        · subst h1
          simp only [] at h hm hd ⊢
          rw [plan_red_sales_comparison m d f c hm hd] at h
          injection h with h
          exact Or.inr (Or.inl (⟨trivial, h.symm⟩))
        · subst h1
          simp only [] at h hm hd ⊢
          rw [plan_red_revenue_by_category m d f c hm hd] at h
          injection h with h
          exact Or.inr (Or.inr (Or.inl (⟨trivial, h.symm⟩)))
        · subst h1
          simp only [] at h hm hd ⊢
          rw [plan_red_top_products m d f c hm hd] at h
          injection h with h
          exact Or.inr (Or.inr (Or.inr (Or.inl (⟨trivial, h.symm⟩))))
        · subst h1
          simp only [] at h hm hd ⊢
          rw [plan_red_sales_comparison_by_year m d f c hm hd] at h
          injection h with h
          exact Or.inr (Or.inr (Or.inr (Or.inr (Or.inl (⟨trivial, h.symm⟩)))))
        · subst h1
          simp only [] at h hm hd ⊢
          rw [plan_red_sales_trend_over_time m d f c hm hd] at h
          injection h with h
          exact Or.inr (Or.inr (Or.inr (Or.inr (Or.inr (Or.inl (⟨trivial, h.symm⟩))))))
        · subst h1
          simp only [] at h hm hd ⊢
          rw [plan_red_total_sales_for_period m d f c hm hd] at h
          injection h with h
          exact Or.inr (Or.inr (Or.inr (Or.inr (Or.inr (Or.inr (Or.inl (⟨trivial, h.symm⟩)))))))
        · subst h1
          simp only [] at h hm hd ⊢
          rw [plan_red_sales_by_product m d f c hm hd] at h
          injection h with h
          exact Or.inr (Or.inr (Or.inr (Or.inr (Or.inr (Or.inr (Or.inr (Or.inl (⟨trivial, h.symm⟩))))))))
        · subst h1
          simp only [] at h hm hd ⊢
          rw [plan_red_product_sales_trend m d f c hm hd] at h
          exact Or.inr (Or.inr (Or.inr (Or.inr (Or.inr (Or.inr (Or.inr (Or.inr (Or.inl (⟨trivial, h⟩)))))))))
        · subst h1
          simp only [] at h hm hd ⊢
          rw [plan_red_sales_by_category m d f c hm hd] at h
          injection h with h
          exact Or.inr (Or.inr (Or.inr (Or.inr (Or.inr (Or.inr (Or.inr (Or.inr (Or.inr (Or.inl (⟨trivial, h.symm⟩))))))))))
        · subst h1
          simp only [] at h hm hd ⊢
          rw [plan_red_top_bottom_performers m d f c hm hd] at h
          injection h with h
          exact Or.inr (Or.inr (Or.inr (Or.inr (Or.inr (Or.inr (Or.inr (Or.inr (Or.inr (Or.inr (Or.inl (⟨trivial, h.symm⟩)))))))))))
        · subst h1
          simp only [] at h hm hd ⊢
          rw [plan_red_sales_breakdown_for_year m d f c hm hd] at h
          exact Or.inr (Or.inr (Or.inr (Or.inr (Or.inr (Or.inr (Or.inr (Or.inr (Or.inr (Or.inr (Or.inr (Or.inl (⟨trivial, h⟩))))))))))))
        · subst h1
          simp only [] at h hm hd ⊢
          rw [plan_red_sales_growth_analysis m d f c hm hd] at h
          injection h with h
          exact Or.inr (Or.inr (Or.inr (Or.inr (Or.inr (Or.inr (Or.inr (Or.inr (Or.inr (Or.inr (Or.inr (Or.inr (Or.inl (⟨trivial, h.symm⟩)))))))))))))
        · subst h1
          simp only [] at h hm hd ⊢
          rw [plan_red_clarification_required m d f c hm hd] at h
          injection h with h
          exact Or.inr (Or.inr (Or.inr (Or.inr (Or.inr (Or.inr (Or.inr (Or.inr (Or.inr (Or.inr (Or.inr (Or.inr (Or.inr (Or.inl (⟨trivial, h.symm⟩))))))))))))))
        · subst h1
          simp only [] at h hm hd ⊢
          rw [plan_red_multi_year_comparison m d f c hm hd] at h
          injection h with h
          exact Or.inr (Or.inr (Or.inr (Or.inr (Or.inr (Or.inr (Or.inr (Or.inr (Or.inr (Or.inr (Or.inr (Or.inr (Or.inr (Or.inr (⟨trivial, h.symm⟩))))))))))))))
      · rw [plan_err_dimension ⟨i, m, d, f, c⟩ sp v hL hm hd] at h
        simp at h
    · rw [plan_err_metric ⟨i, m, d, f, c⟩ sp v hL hm] at h
      simp at h

/-- C4: for every intent payload on which `plan_intent` succeeds, the set of
keys of the returned `PlannedQuery.params` is exactly the set of `:name`
bind-parameter names occurring in its sql template — every branch, for
every filter combination it accepts, maintains this correspondence. -/
theorem C4_params_match_placeholders (p : IntentPayload) (q : PlannedQuery)
    (h : plan_intent p = .ok q) : paramKeysMatch q = true := by
  rcases plan_ok_dispatch p q h with ⟨_, hq⟩ | ⟨_, hq⟩ | ⟨_, hq⟩ | ⟨_, hq⟩ | ⟨_, hq⟩ |
    ⟨_, hq⟩ | ⟨_, hq⟩ | ⟨_, hq⟩ | ⟨_, hq⟩ | ⟨_, hq⟩ | ⟨_, hq⟩ | ⟨_, hq⟩ | ⟨_, hq⟩ |
    ⟨_, hq⟩ | ⟨_, hq⟩
  · rw [hq]; exact pkm_trend _ _
  · rw [hq]; exact pkm_trend _ _
  · rw [hq]; exact pkm_revenue_by_category _ _
  · rw [hq]; exact pkm_top_products _ _
  · rw [hq]; exact pkm_comparison_by_year _ _
  · rw [hq]; exact pkm_trend _ _
  · rw [hq]; exact pkm_total_sales _ _
  · rw [hq]; exact pkm_sales_by_product _ _
  · exact pkm_product_sales_trend _ _ q hq
  · rw [hq]; exact pkm_sales_by_category _ _
  · rw [hq]; exact pkm_top_bottom _ _ _
  · exact pkm_breakdown _ _ _ q hq
  · rw [hq]; exact pkm_growth _ _
  · rw [hq]; exact pkm_clarification _
  · rw [hq]; exact pkm_multi_year _ _

/-- Witness for C4 at a concrete payload: a `sales_trend` plan with a years
list and a product-name filter. -/
theorem C4_params_match_placeholders_witness :
    paramKeysMatch (branch_trend "line"
      { years := .vList [.vInt 2020, .vInt 2021], product_name := .vStr "abc" }) = true :=
  C4_params_match_placeholders
    ⟨"sales_trend", ["total_revenue"], ["year"],
      { years := .vList [.vInt 2020, .vInt 2021], product_name := .vStr "abc" }, .vNone⟩
    (branch_trend "line"
      { years := .vList [.vInt 2020, .vInt 2021], product_name := .vStr "abc" })
    rfl

/-- C1 counterexample: a `top_bottom_performers` limit of 999 does not clamp
to 50 — the planner resolves it to the default 5. -/
theorem C1_counterexample :
    (plan_intent
        { intent := "top_bottom_performers", metrics := [], dimensions := [],
          filters := { limit := .vInt 999 }, chart := .vNone }).toOption.map
      (fun q => q.params.lookup "limit") = some (some (.vInt 5)) ∧ (5 : Int) ≠ 50 :=
  ⟨rfl, by decide⟩

/-- C1 (amended): `sales_by_product` keeps an integer limit within [1,100]
and resolves any other limit value to the default 20; `top_bottom_performers`
keeps an integer limit within [1,50] and resolves any other limit value to
the default 5 — so limits 0, -5 and 500 resolve to 20 and a limit of 999
resolves to 5 (not 50). -/
theorem C1_limit_resolution :
    (∀ (p : IntentPayload) (q : PlannedQuery) (n : Int),
       p.intent = "sales_by_product" → p.filters.limit = .vInt n →
       plan_intent p = .ok q →
       q.params.lookup "limit" = some (.vInt (if 1 ≤ n ∧ n ≤ 100 then n else 20))) ∧
    (∀ (p : IntentPayload) (q : PlannedQuery) (n : Int),
       p.intent = "top_bottom_performers" → p.filters.limit = .vInt n →
       plan_intent p = .ok q →
       q.params.lookup "limit" = some (.vInt (if 1 ≤ n ∧ n ≤ 50 then n else 5))) := by
  constructor
  · intro p q n hI hlim h
    rcases plan_ok_dispatch p q h with ⟨h1, hq⟩ | ⟨h1, hq⟩ | ⟨h1, hq⟩ | ⟨h1, hq⟩ | ⟨h1, hq⟩ |
      ⟨h1, hq⟩ | ⟨h1, hq⟩ | ⟨h1, hq⟩ | ⟨h1, hq⟩ | ⟨h1, hq⟩ | ⟨h1, hq⟩ | ⟨h1, hq⟩ |
      ⟨h1, hq⟩ | ⟨h1, hq⟩ | ⟨h1, hq⟩ <;>
        first
        | exact absurd (hI.symm.trans h1) (by decide)
        | (rw [hq]
           unfold branch_sales_by_product resolveLimit
           rw [hlim]
           simp only [List.singleton_append, List.lookup, Value.isinstInt, beq_self_eq_true,
             if_true]
           split_ifs with h2 h3 h3
           · exfalso
             omega
           · rfl
           · rfl
           · exfalso
             omega)
  · intro p q n hI hlim h
    rcases plan_ok_dispatch p q h with ⟨h1, hq⟩ | ⟨h1, hq⟩ | ⟨h1, hq⟩ | ⟨h1, hq⟩ | ⟨h1, hq⟩ |
      ⟨h1, hq⟩ | ⟨h1, hq⟩ | ⟨h1, hq⟩ | ⟨h1, hq⟩ | ⟨h1, hq⟩ | ⟨h1, hq⟩ | ⟨h1, hq⟩ |
      ⟨h1, hq⟩ | ⟨h1, hq⟩ | ⟨h1, hq⟩ <;>
        first
        | exact absurd (hI.symm.trans h1) (by decide)
        | (rw [hq]
           unfold branch_top_bottom resolveLimit
           rw [hlim]
           simp only [List.singleton_append, List.lookup, Value.isinstInt, beq_self_eq_true,
             if_true]
           split_ifs with h2 h3 h3
           · exfalso
             omega
           · rfl
           · rfl
           · exfalso
             omega)

/-- Witness for C1 at the concrete limits named by the claim: 0, -5 and 500
resolve to 20 for `sales_by_product`; 999 resolves to 5 for
`top_bottom_performers`. -/
theorem C1_limit_resolution_witness :
    (branch_sales_by_product "bar" { limit := .vInt 0 }).params.lookup "limit" =
      some (.vInt (if 1 ≤ (0 : Int) ∧ (0 : Int) ≤ 100 then 0 else 20)) ∧
    (branch_sales_by_product "bar" { limit := .vInt (-5) }).params.lookup "limit" =
      some (.vInt (if 1 ≤ (-5 : Int) ∧ (-5 : Int) ≤ 100 then -5 else 20)) ∧
    (branch_sales_by_product "bar" { limit := .vInt 500 }).params.lookup "limit" =
      some (.vInt (if 1 ≤ (500 : Int) ∧ (500 : Int) ≤ 100 then 500 else 20)) ∧
    (branch_top_bottom "bar" "product" { limit := .vInt 999 }).params.lookup "limit" =
      some (.vInt (if 1 ≤ (999 : Int) ∧ (999 : Int) ≤ 50 then 999 else 5)) :=
  ⟨C1_limit_resolution.1 ⟨"sales_by_product", [], [], { limit := .vInt 0 }, .vNone⟩ _ 0
      rfl rfl rfl,
   C1_limit_resolution.1 ⟨"sales_by_product", [], [], { limit := .vInt (-5) }, .vNone⟩ _ (-5)
      rfl rfl rfl,
   C1_limit_resolution.1 ⟨"sales_by_product", [], [], { limit := .vInt 500 }, .vNone⟩ _ 500
      rfl rfl rfl,
   C1_limit_resolution.2 ⟨"top_bottom_performers", [], [], { limit := .vInt 999 }, .vNone⟩ _ 999
      rfl rfl rfl⟩

/-- C5 counterexample: for the text "revenue in 2022" the rule-based
extractor falls through to the default rule and yields no year filter at
all — refuting the claimed year-2022 filter. -/
theorem C5_counterexample :
    (_stub_parse "revenue in 2022").filters.year = Value.vNone ∧
    (_stub_parse "revenue in 2022").filters.years = Value.vNone ∧
    (_stub_parse "revenue in 2022").filters.year_from = Value.vNone ∧
    (_stub_parse "revenue in 2022").filters.year_to = Value.vNone :=
  ⟨rfl, rfl, rfl, rfl⟩

/-- C5 (amended): for the text "revenue in 2022" the extractor
deterministically yields the default `sales_trend_over_time` intent with an
empty filter map — no year filter — the same well-formed output on every
invocation (the extractor is a pure function of the input text). -/
theorem C5_default_trend :
    _stub_parse "revenue in 2022" =
      { intent := "sales_trend_over_time", metrics := ["total_revenue"],
        dimensions := ["year"], filters := { }, chart := .vStr "line" } := rfl

/-- C6: for the text "top 5 products in 2023" the extractor yields
`top_bottom_performers` with limit 5, order top, entity product and
year 2023. -/
theorem C6_top5_products_2023 :
    _stub_parse "top 5 products in 2023" =
      { intent := "top_bottom_performers", metrics := ["total_revenue"],
        dimensions := ["product"],
        filters := { year := .vInt 2023, limit := .vInt 5, order := .vStr "top",
                     entity := .vStr "product" },
        chart := .vStr "bar" } := rfl

/-- C7: the `clarification_required` plan has an empty parameter map and the
constant `WHERE FALSE` template, whose execution (modelled from the spec as
a constant SELECT filtered by its condition) yields no rows on any
database, and assembling a response from zero rows yields empty labels and
datasets without an error. -/
theorem C7_clarification_empty (p : IntentPayload) (q : PlannedQuery)
    (hI : p.intent = "clarification_required")
    (h : plan_intent p = .ok q) :
    q.params = [] ∧
    q.sql = "SELECT 1::TEXT AS label, 0::NUMERIC AS value WHERE FALSE" ∧
    (∀ (D : Type) (db : D) (row : List (String × PyVal)),
       run_const_select D db row false = []) ∧
    (∀ (labelF valueF title chartType : String),
       (assembleRows labelF valueF []).map
         (fun lv => respOf title chartType lv.1 lv.2) =
         .ok { title := title, chartType := chartType, labels := [], datasets := [] }) := by
  rcases plan_ok_dispatch p q h with ⟨h1, hq⟩ | ⟨h1, hq⟩ | ⟨h1, hq⟩ | ⟨h1, hq⟩ | ⟨h1, hq⟩ |
    ⟨h1, hq⟩ | ⟨h1, hq⟩ | ⟨h1, hq⟩ | ⟨h1, hq⟩ | ⟨h1, hq⟩ | ⟨h1, hq⟩ | ⟨h1, hq⟩ |
    ⟨h1, hq⟩ | ⟨h1, hq⟩ | ⟨h1, hq⟩ <;>
      first
      | exact absurd (hI.symm.trans h1) (by decide)
      | (rw [hq]
         exact ⟨rfl, rfl, fun D db row => rfl, fun lF vF t ct => rfl⟩)

/-- Witness for C7 at a concrete payload. -/
theorem C7_clarification_empty_witness :
    (branch_clarification "line").params = [] ∧
    (branch_clarification "line").sql =
      "SELECT 1::TEXT AS label, 0::NUMERIC AS value WHERE FALSE" ∧
    (∀ (D : Type) (db : D) (row : List (String × PyVal)),
       run_const_select D db row false = []) ∧
    (∀ (labelF valueF title chartType : String),
       (assembleRows labelF valueF []).map
         (fun lv => respOf title chartType lv.1 lv.2) =
         .ok { title := title, chartType := chartType, labels := [], datasets := [] }) :=
  C7_clarification_empty
    ⟨"clarification_required", ["total_revenue"], ["year"], { }, .vNone⟩
    (branch_clarification "line") rfl rfl

theorem log2F_eq (fuel n : Nat) (h : n ≤ fuel) : log2F fuel n = Nat.log2 n := by
  induction fuel generalizing n with
  | zero =>
    have hn : n = 0 := Nat.le_zero.mp h
    subst hn
    rw [Nat.log2]
    rfl
  | succ f ih =>
    rw [Nat.log2]
    show (if 2 ≤ n then log2F f (n / 2) + 1 else 0) = _
    by_cases h2 : 2 ≤ n
    · have hlt : n / 2 < n := Nat.div_lt_self (by omega) (by omega)
      rw [if_pos h2, if_pos h2, ih (n / 2) (by omega)]
    · rw [if_neg h2, if_neg h2]

theorem nlog2_two_pow (k : Nat) : nlog2 (2 ^ k) = k := by
  unfold nlog2
  rw [log2F_eq _ _ le_rfl, Nat.log2_eq_log_two, Nat.log_pow one_lt_two]

theorem pow2_natCast (k : Nat) : pow2 (k : Int) = (2 : ℚ) ^ k := by
  unfold pow2
  rw [if_pos (Int.ofNat_nonneg k)]
  push_cast [Int.toNat_natCast]
  rfl

theorem qabs_of_nonneg (q : ℚ) (h : 0 ≤ q) : qabs q = q := by
  unfold qabs
  rw [if_neg (not_lt.mpr h)]

theorem qlog2floor_two_pow (k : Nat) : qlog2floor ((2 : ℚ) ^ k) = (k : Int) := by
  have hq : ((2 : ℚ) ^ k) = ((2 ^ k : ℕ) : ℚ) := by push_cast; rfl
  unfold qlog2floor
  rw [hq]
  rw [Rat.num_natCast, Rat.den_natCast]
  simp only [Int.natAbs_ofNat, nlog2_two_pow]
  have h1 : nlog2 1 = 0 := rfl
  rw [h1]
  simp only [Nat.cast_zero, sub_zero]
  rw [if_neg, if_pos]
  · have : ((k : Int) + 1) = ((k + 1 : ℕ) : Int) := by push_cast; ring
    rw [this, pow2_natCast]
    push_cast
    exact pow_lt_pow_right₀ one_lt_two (Nat.lt_succ_self k)
  · rw [pow2_natCast]
    push_cast
    exact lt_irrefl _

theorem roundHalfEvenZ_intCast (z : Int) : roundHalfEvenZ ((z : ℚ)) = z := by
  have hf : qfloor ((z : ℚ)) = z := by
    unfold qfloor
    rw [Rat.num_intCast, Rat.den_intCast]
    exact Int.fdiv_one z
  unfold roundHalfEvenZ
  rw [hf]
  rw [if_pos]
  rw [sub_self]
  norm_num

theorem roundQ_two_pow (k : Nat) (h : 1023 < k) : roundQ ((2 : ℚ) ^ k) = none := by
  have hP0 : ((2 : ℚ) ^ k) ≠ 0 := pow_ne_zero k two_ne_zero
  have hPnn : (0 : ℚ) ≤ (2 : ℚ) ^ k := by positivity
  have ha : qabs ((2 : ℚ) ^ k) = (2 : ℚ) ^ k := qabs_of_nonneg _ hPnn
  have he : qlog2floor ((2 : ℚ) ^ k) = (k : Int) := qlog2floor_two_pow k
  have hd : (52 - (k : Int)) = -((k - 52 : ℕ) : Int) := by omega
  have hpneg : pow2 (-((k - 52 : ℕ) : Int)) = 1 / (2 : ℚ) ^ (k - 52) := by
    unfold pow2
    rw [if_neg (by omega), neg_neg, Int.toNat_natCast]
    push_cast
    rfl
  have hmul : (2 : ℚ) ^ k * pow2 (52 - (k : Int)) = ((2 ^ 52 : ℤ) : ℚ) := by
    rw [hd, hpneg]
    have hk : k = 52 + (k - 52) := by omega
    rw [hk]
    rw [pow_add]
    push_cast
    field_simp
    norm_num
  have hm : roundHalfEvenZ ((2 : ℚ) ^ k * pow2 (52 - (k : Int))) = (2 ^ 52 : ℤ) := by
    rw [hmul]
    exact roundHalfEvenZ_intCast _
  simp only [roundQ, if_neg hP0, ha, he, hm]
  rw [if_neg (by omega : ¬ ((k : Int) < -1022))]
  rw [if_neg (by decide : ¬ ((2 ^ 52 : ℤ) = 2 ^ 53))]
  rw [if_pos (by exact_mod_cast h : (1023 : Int) < (k : Int))]

/-- C9 counterexample: `_to_float` raises on a large `int` — the `int`
branch is outside the `try`, and CPython `float(2 ^ 1100)` overflows. -/
theorem C9_counterexample : _to_float (.pint (2 ^ 1100)) = .error () := by
  have h : float_of_int (2 ^ 1100) = none := by
    unfold float_of_int
    have hc : (((2 ^ 1100 : ℤ)) : ℚ) = (2 : ℚ) ^ 1100 := by
      rw [Int.cast_pow]
      norm_num
    rw [hc]
    exact roundQ_two_pow 1100 (by norm_num)
  unfold _to_float
  simp only []
  rw [h]

/-- C9 (amended): `_to_float` raises exactly on `int` inputs whose correctly
rounded double value overflows; on every other modelled input it returns a
value: `None` and unconvertible objects map to 0.0, floats pass through,
representable ints and Decimals convert to the corresponding double. -/
theorem C9_to_float_totality :
    (∀ v : PyVal, (∃ e, _to_float v = .error e) ↔
       ∃ n : Int, v = .pint n ∧ float_of_int n = none) ∧
    _to_float .pnone = .ok (.fin 0) ∧
    (∀ x, _to_float (.pfloat x) = .ok x) ∧
    (∀ (n : Int) (r : ℚ), float_of_int n = some r → _to_float (.pint n) = .ok (.fin r)) ∧
    (∀ q : ℚ, _to_float (.pdec q) = .ok (float_of_dec q)) ∧
    (∀ x, _to_float (.pobj (some x)) = .ok x) ∧
    _to_float (.pobj none) = .ok (.fin 0) := by
  refine ⟨?_, rfl, fun x => rfl, ?_, fun q => rfl, fun x => rfl, rfl⟩
  · intro v
    constructor
    · rintro ⟨e, he⟩
      cases v with
      | pnone => cases he
      | pfloat x => cases he
      | pint n =>
        refine ⟨n, rfl, ?_⟩
        unfold _to_float at he
        simp only [] at he
        rcases hf : float_of_int n with _ | r
        · rfl
        · rw [hf] at he
          simp at he
      | pdec q => cases he
      | pobj conv =>
        cases conv with
        | none => cases he
        | some x => cases he
    · rintro ⟨n, rfl, hf⟩
      refine ⟨(), ?_⟩
      unfold _to_float
      simp only []
      rw [hf]
  · intro n r hf
    unfold _to_float
    simp only []
    rw [hf]

/-- Witness for C9 at a concrete convertible int. -/
theorem C9_to_float_totality_witness :
    float_of_int 5 = some 5 ∧ _to_float (.pint 5) = .ok (.fin 5) :=
  ⟨by with_unfolding_all rfl,
   C9_to_float_totality.2.2.2.1 5 5 (by with_unfolding_all rfl)⟩

/-- `List.find?` on a strictly sorted list returns a minimal element among
those satisfying the predicate. -/
theorem find?_sorted_min (p : Nat → Bool) (l : List Nat)
    (hp : l.Pairwise (fun a b => a < b)) :
    ∀ x, l.find? p = some x → ∀ y, y ∈ l → p y = true → x ≤ y := by
  induction l with
  | nil =>
    intro x h
    simp at h
  | cons a l ih =>
    intro x h y hy hpy
    cases hpa : p a with
    | true =>
      rw [List.find?_cons_of_pos _ hpa] at h
      injection h with h1
      subst h1
      cases List.mem_cons.mp hy with
      | inl hya =>
        subst hya
        exact le_refl _
      | inr hyl =>
        exact le_of_lt ((List.pairwise_cons.mp hp).1 y hyl)
    | false =>
      rw [List.find?_cons_of_neg _ (by simp [hpa])] at h
      cases List.mem_cons.mp hy with
      | inl hya =>
        subst hya
        rw [hpy] at hpa
        exact absurd hpa (by simp)
      | inr hyl =>
        exact ih (List.pairwise_cons.mp hp).2 x h y hyl hpy

/-- `range(2015, 2031)` enumerates the years in strictly increasing order. -/
theorem yearScanRange_sorted : yearScanRange.Pairwise (fun a b => a < b) := by
  decide

/-- C10: `_extract_year` returns the numerically smallest year of 2015-2030
occurring as a substring of the text (`None` when no such year occurs),
independent of the order of occurrence in the text: "report 2030 before
2016" yields 2016. -/
theorem C10_extract_year_minimal :
    (∀ t n, _extract_year t = some n →
       ∃ y : Nat, n = (y : Int) ∧ 2015 ≤ y ∧ y ≤ 2030 ∧ strIn (toString y) t = true ∧
         (∀ m : Nat, 2015 ≤ m → m ≤ 2030 → strIn (toString m) t = true → y ≤ m)) ∧
    (∀ t, _extract_year t = none ↔
       ∀ m : Nat, 2015 ≤ m → m ≤ 2030 → strIn (toString m) t = false) ∧
    _extract_year "report 2030 before 2016" = some 2016 := by
  refine ⟨?_, ?_, rfl⟩
  · intro t n h
    unfold _extract_year at h
    cases hf : yearScanRange.find? (fun y => strIn (toString y) t) with
    | none =>
      rw [hf] at h
      simp at h
    | some y =>
      rw [hf] at h
      injection h with h1
      have hmem := List.mem_of_find?_eq_some hf
      have hb := List.mem_range'_1.mp hmem
      refine ⟨y, h1.symm, hb.1, by omega, ?_, ?_⟩
      · simpa using List.find?_some hf
      · intro m h15 h30 hin
        have hm : m ∈ yearScanRange := List.mem_range'_1.mpr ⟨h15, by omega⟩
        exact find?_sorted_min _ _ yearScanRange_sorted y hf m hm hin
  · intro t
    unfold _extract_year
    constructor
    · intro h m h15 h30
      cases hf : yearScanRange.find? (fun y => strIn (toString y) t) with
      | some y =>
        rw [hf] at h
        simp at h
      | none =>
        have hx := List.find?_eq_none.mp hf m (List.mem_range'_1.mpr ⟨h15, by omega⟩)
        simpa using hx
    · intro hall
      rw [Option.map_eq_none', List.find?_eq_none]
      intro x hx
      have hb := List.mem_range'_1.mp hx
      have hnone := hall x hb.1 (by omega)
      simp [hnone]

/-- `(some x).orElse f = some x` -/
theorem orElse_some_cz (x : α) (f : Unit → Option α) : (some x).orElse f = some x := rfl

/-- `none.orElse f = f ()` -/
theorem orElse_none_cz (f : Unit → Option α) : (none : Option α).orElse f = f () := rfl

/-- a one-element dimension list drawn from \x7bcategory, product\x7d passes the
`top_bottom_performers` / `sales_breakdown_for_year` dimension check -/
theorem find?_dim_tb (b : Bool) :
    [if b then "category" else "product"].find?
      (fun v => !(["product", "category"].contains v)) = none := by
  cases b <;> rfl

/-- payloads produced by `ruleByCategoryKw` pass the catalog validation of
`plan_intent` -/
theorem ruleByCategoryKw_valid (q : String) (c : Option String) (x : IntentPayload)
    (h : ruleByCategoryKw q c = some x) :
    ∃ sp, lookupIntent (x).intent = some sp ∧
      (x).metrics.find? (fun v => !(sp.allowed_metrics.contains v)) = none ∧
      (x).dimensions.find? (fun v => !(sp.allowed_dimensions.contains v)) = none := by
  unfold ruleByCategoryKw at h
  repeat' split at h
  all_goals
    first
      | exact Option.noConfusion h
      | (injection h with h1
         subst h1
         exact ⟨⟨"sales_by_category", ["total_revenue"], ["category"], "bar"⟩, rfl, rfl, rfl⟩)

/-- payloads produced by `ruleTop` pass the catalog validation of
`plan_intent` -/
theorem ruleTop_valid (q : String) (c : Option String) (x : IntentPayload)
    (h : ruleTop q c = some x) :
    ∃ sp, lookupIntent (x).intent = some sp ∧
      (x).metrics.find? (fun v => !(sp.allowed_metrics.contains v)) = none ∧
      (x).dimensions.find? (fun v => !(sp.allowed_dimensions.contains v)) = none := by
  unfold ruleTop at h
  repeat' split at h
  all_goals
    first
      | exact Option.noConfusion h
      | (injection h with h1
         subst h1
         exact ⟨⟨"top_bottom_performers", ["total_revenue"], ["product", "category"], "bar"⟩, rfl, rfl, find?_dim_tb _⟩)

/-- payloads produced by `ruleWorst` pass the catalog validation of
`plan_intent` -/
theorem ruleWorst_valid (q : String) (c : Option String) (x : IntentPayload)
    (h : ruleWorst q c = some x) :
    ∃ sp, lookupIntent (x).intent = some sp ∧
      (x).metrics.find? (fun v => !(sp.allowed_metrics.contains v)) = none ∧
      (x).dimensions.find? (fun v => !(sp.allowed_dimensions.contains v)) = none := by
  unfold ruleWorst at h
  repeat' split at h
  all_goals
    first
      | exact Option.noConfusion h
      | (injection h with h1
         subst h1
         exact ⟨⟨"top_bottom_performers", ["total_revenue"], ["product", "category"], "bar"⟩, rfl, rfl, find?_dim_tb _⟩)

/-- payloads produced by `ruleBreakdown` pass the catalog validation of
`plan_intent` -/
theorem ruleBreakdown_valid (q : String) (c : Option String) (x : IntentPayload)
    (h : ruleBreakdown q c = some x) :
    ∃ sp, lookupIntent (x).intent = some sp ∧
      (x).metrics.find? (fun v => !(sp.allowed_metrics.contains v)) = none ∧
      (x).dimensions.find? (fun v => !(sp.allowed_dimensions.contains v)) = none := by
  unfold ruleBreakdown at h
  repeat' split at h
  all_goals
    first
      | exact Option.noConfusion h
      | (injection h with h1
         subst h1
         exact ⟨⟨"sales_breakdown_for_year", ["total_revenue"], ["product", "category"], "bar"⟩, rfl, rfl, rfl⟩)

/-- payloads produced by `ruleRange` pass the catalog validation of
`plan_intent` -/
theorem ruleRange_valid (q question : String) (c : Option String) (x : IntentPayload)
    (h : ruleRange q question c = some x) :
    ∃ sp, lookupIntent (x).intent = some sp ∧
      (x).metrics.find? (fun v => !(sp.allowed_metrics.contains v)) = none ∧
      (x).dimensions.find? (fun v => !(sp.allowed_dimensions.contains v)) = none := by
  unfold ruleRange at h
  split at h
  · exact Option.noConfusion h
  all_goals
    injection h with h1
    subst h1
    split
    · exact ⟨⟨"product_sales_trend", ["total_revenue"], ["year"], "line"⟩, rfl, rfl, rfl⟩
    split
    · exact ⟨⟨"sales_growth_analysis", ["total_revenue"], ["year"], "line"⟩, rfl, rfl, rfl⟩
    · exact ⟨⟨"sales_trend_over_time", ["total_revenue"], ["year"], "line"⟩, rfl, rfl, rfl⟩

/-- payloads produced by `ruleCompare` pass the catalog validation of
`plan_intent` -/
theorem ruleCompare_valid (q question : String) (c : Option String) (x : IntentPayload)
    (h : ruleCompare q question c = some x) :
    ∃ sp, lookupIntent (x).intent = some sp ∧
      (x).metrics.find? (fun v => !(sp.allowed_metrics.contains v)) = none ∧
      (x).dimensions.find? (fun v => !(sp.allowed_dimensions.contains v)) = none := by
  unfold ruleCompare at h
  repeat' split at h
  all_goals
    first
      | exact Option.noConfusion h
      | (injection h with h1
         subst h1
         exact ⟨⟨"sales_comparison_by_year", ["total_revenue"], ["year"], "bar"⟩, rfl, rfl, rfl⟩)

/-- payloads produced by `ruleGap` pass the catalog validation of
`plan_intent` -/
theorem ruleGap_valid (q : String) (c : Option String) (x : IntentPayload)
    (h : ruleGap q c = some x) :
    ∃ sp, lookupIntent (x).intent = some sp ∧
      (x).metrics.find? (fun v => !(sp.allowed_metrics.contains v)) = none ∧
      (x).dimensions.find? (fun v => !(sp.allowed_dimensions.contains v)) = none := by
  unfold ruleGap at h
  repeat' split at h
  all_goals
    first
      | exact Option.noConfusion h
      | (injection h with h1
         subst h1
         exact ⟨⟨"sales_comparison_by_year", ["total_revenue"], ["year"], "bar"⟩, rfl, rfl, rfl⟩)

/-- payloads produced by `ruleLast3` pass the catalog validation of
`plan_intent` -/
theorem ruleLast3_valid (q : String) (c : Option String) (x : IntentPayload)
    (h : ruleLast3 q c = some x) :
    ∃ sp, lookupIntent (x).intent = some sp ∧
      (x).metrics.find? (fun v => !(sp.allowed_metrics.contains v)) = none ∧
      (x).dimensions.find? (fun v => !(sp.allowed_dimensions.contains v)) = none := by
  unfold ruleLast3 at h
  repeat' split at h
  all_goals
    first
      | exact Option.noConfusion h
      | (injection h with h1
         subst h1
         exact ⟨⟨"multi_year_comparison", ["total_revenue"], ["year"], "bar"⟩, rfl, rfl, rfl⟩)

/-- payloads produced by `ruleAverage` pass the catalog validation of
`plan_intent` -/
theorem ruleAverage_valid (q : String) (c : Option String) (x : IntentPayload)
    (h : ruleAverage q c = some x) :
    ∃ sp, lookupIntent (x).intent = some sp ∧
      (x).metrics.find? (fun v => !(sp.allowed_metrics.contains v)) = none ∧
      (x).dimensions.find? (fun v => !(sp.allowed_dimensions.contains v)) = none := by
  unfold ruleAverage at h
  repeat' split at h
  all_goals
    first
      | exact Option.noConfusion h
      | (injection h with h1
         subst h1
         exact ⟨⟨"multi_year_comparison", ["total_revenue"], ["year"], "bar"⟩, rfl, rfl, rfl⟩)

/-- payloads produced by `ruleTotal` pass the catalog validation of
`plan_intent` -/
theorem ruleTotal_valid (q : String) (c : Option String) (x : IntentPayload)
    (h : ruleTotal q c = some x) :
    ∃ sp, lookupIntent (x).intent = some sp ∧
      (x).metrics.find? (fun v => !(sp.allowed_metrics.contains v)) = none ∧
      (x).dimensions.find? (fun v => !(sp.allowed_dimensions.contains v)) = none := by
  unfold ruleTotal at h
  repeat' split at h
  all_goals
    first
      | exact Option.noConfusion h
      | (injection h with h1
         subst h1
         exact ⟨⟨"total_sales_for_period", ["total_revenue"], ["year"], "bar"⟩, rfl, rfl, rfl⟩)

/-- payloads produced by `ruleByProduct` pass the catalog validation of
`plan_intent` -/
theorem ruleByProduct_valid (q : String) (c : Option String) (x : IntentPayload)
    (h : ruleByProduct q c = some x) :
    ∃ sp, lookupIntent (x).intent = some sp ∧
      (x).metrics.find? (fun v => !(sp.allowed_metrics.contains v)) = none ∧
      (x).dimensions.find? (fun v => !(sp.allowed_dimensions.contains v)) = none := by
  unfold ruleByProduct at h
  repeat' split at h
  all_goals
    first
      | exact Option.noConfusion h
      | (injection h with h1
         subst h1
         exact ⟨⟨"sales_by_product", ["total_revenue"], ["product"], "bar"⟩, rfl, rfl, rfl⟩)

/-- payloads produced by `ruleAcrossCats` pass the catalog validation of
`plan_intent` -/
theorem ruleAcrossCats_valid (q : String) (c : Option String) (x : IntentPayload)
    (h : ruleAcrossCats q c = some x) :
    ∃ sp, lookupIntent (x).intent = some sp ∧
      (x).metrics.find? (fun v => !(sp.allowed_metrics.contains v)) = none ∧
      (x).dimensions.find? (fun v => !(sp.allowed_dimensions.contains v)) = none := by
  unfold ruleAcrossCats at h
  repeat' split at h
  all_goals
    first
      | exact Option.noConfusion h
      | (injection h with h1
         subst h1
         exact ⟨⟨"sales_by_category", ["total_revenue"], ["category"], "bar"⟩, rfl, rfl, rfl⟩)

/-- payloads produced by `ruleOverview` pass the catalog validation of
`plan_intent` -/
theorem ruleOverview_valid (q : String) (x : IntentPayload)
    (h : ruleOverview q = some x) :
    ∃ sp, lookupIntent (x).intent = some sp ∧
      (x).metrics.find? (fun v => !(sp.allowed_metrics.contains v)) = none ∧
      (x).dimensions.find? (fun v => !(sp.allowed_dimensions.contains v)) = none := by
  unfold ruleOverview at h
  repeat' split at h
  all_goals
    first
      | exact Option.noConfusion h
      | (injection h with h1
         subst h1
         exact ⟨⟨"clarification_required", ["total_revenue"], ["year"], "line"⟩, rfl, rfl, rfl⟩)

/-- C8: for every question string, `_stub_parse` yields a payload whose
intent is a key of `INTENTS` and whose metrics and dimensions all lie in
that entry's allowed sets, so the validation prologue of `plan_intent`
finds no unsupported metric or dimension. -/
theorem C8_stub_parse_valid (question : String) :
    ∃ sp, lookupIntent (_stub_parse question).intent = some sp ∧
      (_stub_parse question).metrics.find? (fun v => !(sp.allowed_metrics.contains v)) = none ∧
      (_stub_parse question).dimensions.find? (fun v => !(sp.allowed_dimensions.contains v)) = none := by
  cases h1 : ruleByCategoryKw (pyLower question) (_extract_category question) with
  | some x =>
    simp only [_stub_parse, h1, orElse_some_cz, orElse_none_cz, Option.getD_some]
    exact ruleByCategoryKw_valid _ _ _ h1
  | none =>
    cases h2 : ruleTop (pyLower question) (_extract_category question) with
    | some x =>
      simp only [_stub_parse, h1, h2, orElse_some_cz, orElse_none_cz, Option.getD_some]
      exact ruleTop_valid _ _ _ h2
    | none =>
      cases h3 : ruleWorst (pyLower question) (_extract_category question) with
      | some x =>
        simp only [_stub_parse, h1, h2, h3, orElse_some_cz, orElse_none_cz, Option.getD_some]
        exact ruleWorst_valid _ _ _ h3
      | none =>
        cases h4 : ruleBreakdown (pyLower question) (_extract_category question) with
        | some x =>
          simp only [_stub_parse, h1, h2, h3, h4, orElse_some_cz, orElse_none_cz, Option.getD_some]
          exact ruleBreakdown_valid _ _ _ h4
        | none =>
          cases h5 : ruleRange (pyLower question) question (_extract_category question) with
          | some x =>
            simp only [_stub_parse, h1, h2, h3, h4, h5, orElse_some_cz, orElse_none_cz, Option.getD_some]
            exact ruleRange_valid _ _ _ _ h5
          | none =>
            cases h6 : ruleCompare (pyLower question) question (_extract_category question) with
            | some x =>
              simp only [_stub_parse, h1, h2, h3, h4, h5, h6, orElse_some_cz, orElse_none_cz, Option.getD_some]
              exact ruleCompare_valid _ _ _ _ h6
            | none =>
              cases h7 : ruleGap (pyLower question) (_extract_category question) with
              | some x =>
                simp only [_stub_parse, h1, h2, h3, h4, h5, h6, h7, orElse_some_cz, orElse_none_cz, Option.getD_some]
                exact ruleGap_valid _ _ _ h7
              | none =>
                cases h8 : ruleLast3 (pyLower question) (_extract_category question) with
                | some x =>
                  simp only [_stub_parse, h1, h2, h3, h4, h5, h6, h7, h8, orElse_some_cz, orElse_none_cz, Option.getD_some]
                  exact ruleLast3_valid _ _ _ h8
                | none =>
                  cases h9 : ruleAverage (pyLower question) (_extract_category question) with
                  | some x =>
                    simp only [_stub_parse, h1, h2, h3, h4, h5, h6, h7, h8, h9, orElse_some_cz, orElse_none_cz, Option.getD_some]
                    exact ruleAverage_valid _ _ _ h9
                  | none =>
                    cases h10 : ruleTotal (pyLower question) (_extract_category question) with
                    | some x =>
                      simp only [_stub_parse, h1, h2, h3, h4, h5, h6, h7, h8, h9, h10, orElse_some_cz, orElse_none_cz, Option.getD_some]
                      exact ruleTotal_valid _ _ _ h10
                    | none =>
                      cases h11 : ruleByProduct (pyLower question) (_extract_category question) with
                      | some x =>
                        simp only [_stub_parse, h1, h2, h3, h4, h5, h6, h7, h8, h9, h10, h11, orElse_some_cz, orElse_none_cz, Option.getD_some]
                        exact ruleByProduct_valid _ _ _ h11
                      | none =>
                        cases h12 : ruleAcrossCats (pyLower question) (_extract_category question) with
                        | some x =>
                          simp only [_stub_parse, h1, h2, h3, h4, h5, h6, h7, h8, h9, h10, h11, h12, orElse_some_cz, orElse_none_cz, Option.getD_some]
                          exact ruleAcrossCats_valid _ _ _ h12
                        | none =>
                          cases h13 : ruleOverview (pyLower question) with
                          | some x =>
                            simp only [_stub_parse, h1, h2, h3, h4, h5, h6, h7, h8, h9, h10, h11, h12, h13, orElse_some_cz, orElse_none_cz, Option.getD_some]
                            exact ruleOverview_valid _ _ h13
                          | none =>
                            simp only [_stub_parse, h1, h2, h3, h4, h5, h6, h7, h8, h9, h10, h11, h12, h13, orElse_none_cz, Option.getD_none]
                            exact ⟨⟨"sales_trend_over_time", ["total_revenue"], ["year"], "line"⟩, rfl, rfl, rfl⟩

/-- C2 counterexample: a `product_sales_trend` payload whose `product_name`
is the non-empty string " " (truthy in the claim's sense of "non-empty")
still raises, because the planner strips it before testing. -/
theorem C2_counterexample :
    (Value.vStr " ").truthy = true ∧
    plan_intent
        ⟨"product_sales_trend", ["total_revenue"], ["year"],
         { product_name := .vStr " " }, .vNone⟩ =
      .error "product_sales_trend requires product_id or product_name" :=
  ⟨by decide, rfl⟩

/-- C2 (amended): when the metrics and dimensions pass the catalog check,
`plan_intent` fails exactly on `product_sales_trend` without an `int`
`product_id` and without a `str` `product_name` that strips to non-empty,
and on `sales_breakdown_for_year` without an `int` `year`. -/
theorem C2_failure_characterization (p : IntentPayload) (sp : IntentSpec)
    (hl : lookupIntent p.intent = some sp)
    (hm : p.metrics.find? (fun v => !(sp.allowed_metrics.contains v)) = none)
    (hd : p.dimensions.find? (fun v => !(sp.allowed_dimensions.contains v)) = none) :
    (∃ e, plan_intent p = .error e) ↔
      (p.intent = "product_sales_trend" ∧ p.filters.product_id.isinstInt = none ∧
         p.filters.product_name.strOpt = none) ∨
      (p.intent = "sales_breakdown_for_year" ∧ p.filters.year.isinstInt = none) := by
  obtain ⟨i, m, d, f, c⟩ := p
  obtain ⟨pr, hmem, hn, hs⟩ := lookup_inv _ _ hl
  simp only [INTENTS, List.mem_cons, List.not_mem_nil, or_false] at hmem
  rcases hmem with rfl | rfl | rfl | rfl | rfl | rfl | rfl | rfl | rfl | rfl | rfl | rfl | rfl | rfl | rfl
  · have hi : i = "sales_trend" := hn.symm
    have hsp : sp = ⟨"sales_trend", ["total_revenue"], ["year"], "line"⟩ := hs.symm
    subst hi
    subst hsp
    have hred := plan_red_sales_trend m d f c hm hd
    rw [hred]
    simp
  · have hi : i = "sales_comparison" := hn.symm
    have hsp : sp = ⟨"sales_comparison", ["total_revenue"], ["year"], "bar"⟩ := hs.symm
    subst hi
    subst hsp
    have hred := plan_red_sales_comparison m d f c hm hd
    rw [hred]
    simp
  · have hi : i = "revenue_by_category" := hn.symm
    have hsp : sp = ⟨"revenue_by_category", ["total_revenue"], ["category"], "bar"⟩ := hs.symm
    subst hi
    subst hsp
    have hred := plan_red_revenue_by_category m d f c hm hd
    rw [hred]
    simp
  · have hi : i = "top_products" := hn.symm
    have hsp : sp = ⟨"top_products", ["total_revenue"], ["product"], "bar"⟩ := hs.symm
    subst hi
    subst hsp
    have hred := plan_red_top_products m d f c hm hd
    rw [hred]
    simp
  · have hi : i = "sales_comparison_by_year" := hn.symm
    have hsp : sp = ⟨"sales_comparison_by_year", ["total_revenue"], ["year"], "bar"⟩ := hs.symm
    subst hi
    subst hsp
    have hred := plan_red_sales_comparison_by_year m d f c hm hd
    rw [hred]
    simp
  · have hi : i = "sales_trend_over_time" := hn.symm
    have hsp : sp = ⟨"sales_trend_over_time", ["total_revenue"], ["year"], "line"⟩ := hs.symm
    subst hi
    subst hsp
    have hred := plan_red_sales_trend_over_time m d f c hm hd
    rw [hred]
    simp
  · have hi : i = "total_sales_for_period" := hn.symm
    have hsp : sp = ⟨"total_sales_for_period", ["total_revenue"], ["year"], "bar"⟩ := hs.symm
    subst hi
    subst hsp
    have hred := plan_red_total_sales_for_period m d f c hm hd
    rw [hred]
    simp
  · have hi : i = "sales_by_product" := hn.symm
    have hsp : sp = ⟨"sales_by_product", ["total_revenue"], ["product"], "bar"⟩ := hs.symm
    subst hi
    subst hsp
    have hred := plan_red_sales_by_product m d f c hm hd
    rw [hred]
    simp
  · have hi : i = "product_sales_trend" := hn.symm
    have hsp : sp = ⟨"product_sales_trend", ["total_revenue"], ["year"], "line"⟩ := hs.symm
    subst hi
    subst hsp
    have hred := plan_red_product_sales_trend m d f c hm hd
    rw [hred]
    unfold branch_product_sales_trend
    cases hpid : f.product_id.isinstInt with
    | some k =>
      simp
    | none =>
      cases hpn : f.product_name.strOpt with
      | some s => simp
      | none => simp
  · have hi : i = "sales_by_category" := hn.symm
    have hsp : sp = ⟨"sales_by_category", ["total_revenue"], ["category"], "bar"⟩ := hs.symm
    subst hi
    subst hsp
    have hred := plan_red_sales_by_category m d f c hm hd
    rw [hred]
    simp
  · have hi : i = "top_bottom_performers" := hn.symm
    have hsp : sp = ⟨"top_bottom_performers", ["total_revenue"], ["product", "category"], "bar"⟩ := hs.symm
    subst hi
    subst hsp
    have hred := plan_red_top_bottom_performers m d f c hm hd
    rw [hred]
    simp
  · have hi : i = "sales_breakdown_for_year" := hn.symm
    have hsp : sp = ⟨"sales_breakdown_for_year", ["total_revenue"], ["product", "category"], "bar"⟩ := hs.symm
    subst hi
    subst hsp
    have hred := plan_red_sales_breakdown_for_year m d f c hm hd
    rw [hred]
    unfold branch_breakdown
    cases hy : f.year.isinstInt with
    | some k => simp
    | none => simp
  · have hi : i = "sales_growth_analysis" := hn.symm
    have hsp : sp = ⟨"sales_growth_analysis", ["total_revenue"], ["year"], "line"⟩ := hs.symm
    subst hi
    subst hsp
    have hred := plan_red_sales_growth_analysis m d f c hm hd
    rw [hred]
    simp
  · have hi : i = "clarification_required" := hn.symm
    have hsp : sp = ⟨"clarification_required", ["total_revenue"], ["year"], "line"⟩ := hs.symm
    subst hi
    subst hsp
    have hred := plan_red_clarification_required m d f c hm hd
    rw [hred]
    simp
  · have hi : i = "multi_year_comparison" := hn.symm
    have hsp : sp = ⟨"multi_year_comparison", ["total_revenue"], ["year"], "bar"⟩ := hs.symm
    subst hi
    subst hsp
    have hred := plan_red_multi_year_comparison m d f c hm hd
    rw [hred]
    simp

/-- C2 witness: the characterization applied to a `product_sales_trend`
payload with no product filter. -/
theorem C2_failure_characterization_witness :
    (∃ e, plan_intent
        ⟨"product_sales_trend", ["total_revenue"], ["year"], { }, .vNone⟩ = .error e) ↔
      (("product_sales_trend" : String) = "product_sales_trend" ∧
         (Filters.product_id { }).isinstInt = none ∧
         (Filters.product_name { }).strOpt = none) ∨
      (("product_sales_trend" : String) = "sales_breakdown_for_year" ∧
         (Filters.year { }).isinstInt = none) :=
  C2_failure_characterization
    ⟨"product_sales_trend", ["total_revenue"], ["year"], { }, .vNone⟩
    ⟨"product_sales_trend", ["total_revenue"], ["year"], "line"⟩ rfl rfl rfl

/-- `StrSim` values have the same truthiness (a non-blank string is
non-empty). -/
theorem strSim_truthy (v w : Value) (h : StrSim v w) : v.truthy = w.truthy := by
  rcases h with rfl | ⟨s, t, rfl, rfl, hs, ht⟩
  · rfl
  · have hs0 : s ≠ "" := fun h0 => hs (by rw [h0]; rfl)
    have ht0 : t ≠ "" := fun h0 => ht (by rw [h0]; rfl)
    simp [Value.truthy, hs0, ht0]

/-- lists of the same length are empty together -/
theorem isEmpty_congr_len (l m : List α) (h : l.length = m.length) :
    l.isEmpty = m.isEmpty := by
  cases l <;> cases m <;> simp_all

/-- `CatsSim` values have the same truthiness. -/
theorem catsSim_truthy (v w : Value) (h : CatsSim v w) : v.truthy = w.truthy := by
  rcases h with rfl | ⟨l, m, rfl, rfl, hf⟩
  · rfl
  · show (!l.isEmpty) = (!m.isEmpty)
    rw [isEmpty_congr_len l m hf.length_eq]

/-- the cleaned category list keeps its length across `StrSim` entries -/
theorem cleanedCats_length (l m : List Value) (h : List.Forall₂ StrSim l m) :
    (cleanedCats l).length = (cleanedCats m).length := by
  induction h with
  | nil => rfl
  | cons hab hrest ih =>
    unfold cleanedCats at ih ⊢
    rw [List.filterMap_cons, List.filterMap_cons]
    rcases hab with rfl | ⟨s, t, rfl, rfl, hs0, ht0⟩
    · cases hfa : (if pyStrip (pyStr _) = "" then none else some (pyLower (pyStrip (pyStr _)))) with
      | none => exact ih
      | some b => simp [ih]
    · rw [show pyStr (Value.vStr s) = s from rfl, show pyStr (Value.vStr t) = t from rfl]
      rw [if_neg hs0, if_neg ht0]
      simp [ih]

/-- `catPart` contributes the same WHERE fragment and join flag across
`StrSim` category values. -/
theorem catPart_sim (f g : Filters) (h : StrSim f.category g.category) :
    (catPart f).w = (catPart g).w ∧ (catPart f).jp = (catPart g).jp := by
  unfold catPart
  rcases h with h | ⟨s, t, hs, ht, hs0, ht0⟩
  · rw [h]
    exact ⟨rfl, rfl⟩
  · rw [hs, ht]
    simp only [Value.strOpt]
    rw [if_neg hs0, if_neg ht0]
    exact ⟨rfl, rfl⟩

/-- `pnPart` contributes the same WHERE fragment and join flag across
`StrSim` product names. -/
theorem pnPart_sim (f g : Filters) (h : StrSim f.product_name g.product_name) :
    (pnPart f).w = (pnPart g).w ∧ (pnPart f).jp = (pnPart g).jp := by
  unfold pnPart
  rcases h with h | ⟨s, t, hs, ht, hs0, ht0⟩
  · rw [h]
    exact ⟨rfl, rfl⟩
  · rw [hs, ht]
    simp only [Value.strOpt]
    rw [if_neg hs0, if_neg ht0]
    exact ⟨rfl, rfl⟩

/-- `catOrCatsPart` contributes the same WHERE fragment and join flag
across `StrSim`/`CatsSim` category filters. -/
theorem catOrCatsPart_sim (f g : Filters) (hc : StrSim f.category g.category)
    (hcs : CatsSim f.categories g.categories) :
    (catOrCatsPart f).w = (catOrCatsPart g).w ∧ (catOrCatsPart f).jp = (catOrCatsPart g).jp := by
  unfold catOrCatsPart
  rcases hc with hc | ⟨s, t, hs, ht, hs0, ht0⟩
  · rw [hc]
    cases hco : g.category.strOpt with
    | some c => exact ⟨rfl, rfl⟩
    | none =>
      rcases hcs with hcs | ⟨l, m, hl, hm, hf⟩
      · rw [hcs]
        exact ⟨rfl, rfl⟩
      · rw [hl, hm]
        simp only [Value.isinstList]
        rw [isEmpty_congr_len l m hf.length_eq,
            isEmpty_congr_len (cleanedCats l) (cleanedCats m) (cleanedCats_length l m hf)]
        by_cases h1 : m.isEmpty
        · rw [if_pos h1, if_pos h1]
          exact ⟨rfl, rfl⟩
        · rw [if_neg h1, if_neg h1]
          by_cases h2 : (cleanedCats m).isEmpty
          · rw [if_pos h2, if_pos h2]
            exact ⟨rfl, rfl⟩
          · rw [if_neg h2, if_neg h2]
            exact ⟨rfl, rfl⟩
  · rw [hs, ht]
    simp only [Value.strOpt]
    rw [if_neg hs0, if_neg ht0]
    exact ⟨rfl, rfl⟩

/-- `multiYearExtra` only tests whether the category strips to non-empty. -/
theorem multiYearExtra_sim (f g : Filters) (h : StrSim f.category g.category) :
    multiYearExtra f = multiYearExtra g := by
  unfold multiYearExtra
  rcases h with h | ⟨s, t, hs, ht, hs0, ht0⟩
  · rw [h]
  · rw [hs, ht]
    simp only [Value.strOpt]
    rw [if_neg hs0, if_neg ht0]

/-- `yfytPart` depends only on the year-range fields. -/
theorem yfytPart_eq (f g : Filters) (h1 : f.year_from = g.year_from)
    (h2 : f.year_to = g.year_to) : yfytPart f = yfytPart g := by
  unfold yfytPart
  rw [h1, h2]

/-- `yearOrRangePart` depends only on the year fields. -/
theorem yearOrRangePart_eq (f g : Filters) (h : f.year = g.year)
    (h1 : f.year_from = g.year_from) (h2 : f.year_to = g.year_to) :
    yearOrRangePart f = yearOrRangePart g := by
  unfold yearOrRangePart
  rw [h, yfytPart_eq f g h1 h2]

/-- `pidPart` depends only on `product_id`. -/
theorem pidPart_eq (f g : Filters) (h : f.product_id = g.product_id) :
    pidPart f = pidPart g := by
  unfold pidPart
  rw [h]

/-- `yearsOrRangePart` depends only on the year fields. -/
theorem yearsOrRangePart_eq (f g : Filters) (hy : f.years = g.years)
    (h1 : f.year_from = g.year_from) (h2 : f.year_to = g.year_to) :
    yearsOrRangePart f = yearsOrRangePart g := by
  unfold yearsOrRangePart
  rw [hy, yfytPart_eq f g h1 h2]

/-- `yearsSortedPart` depends only on the year-range fields. -/
theorem yearsSortedPart_eq (f g : Filters) (h1 : f.year_from = g.year_from)
    (h2 : f.year_to = g.year_to) : yearsSortedPart f = yearsSortedPart g := by
  unfold yearsSortedPart
  rw [h1, h2]

/-- `yearsOrSortedPart` depends only on the year fields. -/
theorem yearsOrSortedPart_eq (f g : Filters) (hy : f.years = g.years)
    (h1 : f.year_from = g.year_from) (h2 : f.year_to = g.year_to) :
    yearsOrSortedPart f = yearsOrSortedPart g := by
  unfold yearsOrSortedPart
  rw [hy, yearsSortedPart_eq f g h1 h2]

/-- `yearOnlyPart` depends only on `year`. -/
theorem yearOnlyPart_eq (f g : Filters) (h : f.year = g.year) :
    yearOnlyPart f = yearOnlyPart g := by
  unfold yearOnlyPart
  rw [h]

/-- `tbpEntity` depends only on `entity` and the dimension. -/
theorem tbpEntity_eq (f g : Filters) (d0 : String) (h : f.entity = g.entity) :
    tbpEntity f d0 = tbpEntity g d0 := by
  unfold tbpEntity
  rw [h]

/-- `tbpOrder` depends only on `order`. -/
theorem tbpOrder_eq (f g : Filters) (h : f.order = g.order) :
    tbpOrder f = tbpOrder g := by
  unfold tbpOrder
  rw [h]

/-- the trend template is unchanged across similar filter maps -/
theorem branch_trend_sql_sim (c1 c2 : String) (f g : Filters) (h : SimFilters f g) :
    (branch_trend c1 f).sql = (branch_trend c2 g).sql := by
  obtain ⟨hys, hyf, hyt, hy, hyc, hcat, hcats, hpid, hpn, hlim, hord, hent, havg⟩ := h
  obtain ⟨hcw, hcj⟩ := catOrCatsPart_sim f g hcat hcats
  obtain ⟨hpw, hpj⟩ := pnPart_sim f g hpn
  simp only [branch_trend]
  rw [strSim_truthy _ _ hcat, catsSim_truthy _ _ hcats, strSim_truthy _ _ hpn,
      hcj, hpj, yearsOrRangePart_eq f g hys hyf hyt, pidPart_eq f g hpid, hcw, hpw]

/-- the year-comparison template is unchanged across similar filter maps -/
theorem branch_comparison_by_year_sql_sim (c1 c2 : String) (f g : Filters)
    (h : SimFilters f g) :
    (branch_comparison_by_year c1 f).sql = (branch_comparison_by_year c2 g).sql := by
  obtain ⟨hys, hyf, hyt, hy, hyc, hcat, hcats, hpid, hpn, hlim, hord, hent, havg⟩ := h
  obtain ⟨hcw, hcj⟩ := catPart_sim f g hcat
  obtain ⟨hpw, hpj⟩ := pnPart_sim f g hpn
  simp only [branch_comparison_by_year]
  rw [strSim_truthy _ _ hcat, strSim_truthy _ _ hpn,
      hcj, hpj, yearsOrSortedPart_eq f g hys hyf hyt, pidPart_eq f g hpid, hcw, hpw]

/-- the total-sales template is unchanged across similar filter maps -/
theorem branch_total_sales_sql_sim (c1 c2 : String) (f g : Filters)
    (h : SimFilters f g) :
    (branch_total_sales c1 f).sql = (branch_total_sales c2 g).sql := by
  obtain ⟨hys, hyf, hyt, hy, hyc, hcat, hcats, hpid, hpn, hlim, hord, hent, havg⟩ := h
  obtain ⟨hcw, hcj⟩ := catPart_sim f g hcat
  obtain ⟨hpw, hpj⟩ := pnPart_sim f g hpn
  simp only [branch_total_sales]
  rw [strSim_truthy _ _ hcat, strSim_truthy _ _ hpn,
      hcj, hpj, yearOrRangePart_eq f g hy hyf hyt, pidPart_eq f g hpid, hcw, hpw]

/-- the by-product template is unchanged across similar filter maps -/
theorem branch_sales_by_product_sql_sim (c1 c2 : String) (f g : Filters)
    (h : SimFilters f g) :
    (branch_sales_by_product c1 f).sql = (branch_sales_by_product c2 g).sql := by
  obtain ⟨hys, hyf, hyt, hy, hyc, hcat, hcats, hpid, hpn, hlim, hord, hent, havg⟩ := h
  obtain ⟨hcw, hcj⟩ := catPart_sim f g hcat
  simp only [branch_sales_by_product]
  rw [yearOrRangePart_eq f g hy hyf hyt, hcw]

/-- the by-category template is unchanged across similar filter maps -/
theorem branch_sales_by_category_sql_sim (c1 c2 : String) (f g : Filters)
    (h : SimFilters f g) :
    (branch_sales_by_category c1 f).sql = (branch_sales_by_category c2 g).sql := by
  obtain ⟨hys, hyf, hyt, hy, hyc, hcat, hcats, hpid, hpn, hlim, hord, hent, havg⟩ := h
  simp only [branch_sales_by_category]
  rw [yearOrRangePart_eq f g hy hyf hyt]

/-- the growth template is unchanged across similar filter maps -/
theorem branch_growth_sql_sim (c1 c2 : String) (f g : Filters) (h : SimFilters f g) :
    (branch_growth c1 f).sql = (branch_growth c2 g).sql := by
  obtain ⟨hys, hyf, hyt, hy, hyc, hcat, hcats, hpid, hpn, hlim, hord, hent, havg⟩ := h
  obtain ⟨hcw, hcj⟩ := catPart_sim f g hcat
  simp only [branch_growth]
  rw [strSim_truthy _ _ hcat, hcj, yfytPart_eq f g hyf hyt, hcw]

/-- the multi-year template is unchanged across similar filter maps -/
theorem branch_multi_year_sql_sim (c1 c2 : String) (f g : Filters) (h : SimFilters f g) :
    (branch_multi_year c1 f).sql = (branch_multi_year c2 g).sql := by
  obtain ⟨hys, hyf, hyt, hy, hyc, hcat, hcats, hpid, hpn, hlim, hord, hent, havg⟩ := h
  obtain ⟨hcw, hcj⟩ := catPart_sim f g hcat
  simp only [branch_multi_year]
  rw [havg, strSim_truthy _ _ hcat, hcj, multiYearExtra_sim f g hcat]

/-- the legacy revenue-by-category template is unchanged across similar
filter maps -/
theorem branch_revenue_by_category_sql_sim (c1 c2 : String) (f g : Filters)
    (h : SimFilters f g) :
    (branch_revenue_by_category c1 f).sql = (branch_revenue_by_category c2 g).sql := by
  obtain ⟨hys, hyf, hyt, hy, hyc, hcat, hcats, hpid, hpn, hlim, hord, hent, havg⟩ := h
  simp only [branch_revenue_by_category]
  rw [yearOnlyPart_eq f g hy]

/-- the legacy top-products template is unchanged across similar filter maps -/
theorem branch_top_products_sql_sim (c1 c2 : String) (f g : Filters)
    (h : SimFilters f g) :
    (branch_top_products c1 f).sql = (branch_top_products c2 g).sql := by
  obtain ⟨hys, hyf, hyt, hy, hyc, hcat, hcats, hpid, hpn, hlim, hord, hent, havg⟩ := h
  simp only [branch_top_products]
  rw [yearOnlyPart_eq f g hy]

/-- the top-bottom template is unchanged across similar filter maps -/
theorem branch_top_bottom_sql_sim (c1 c2 d0 : String) (f g : Filters)
    (h : SimFilters f g) :
    (branch_top_bottom c1 d0 f).sql = (branch_top_bottom c2 d0 g).sql := by
  obtain ⟨hys, hyf, hyt, hy, hyc, hcat, hcats, hpid, hpn, hlim, hord, hent, havg⟩ := h
  simp only [branch_top_bottom]
  rw [tbpEntity_eq f g d0 hent, tbpOrder_eq f g hord, yearOrRangePart_eq f g hy hyf hyt]

/-- the product-trend template is unchanged across similar filter maps -/
theorem branch_pst_sql_sim (c1 c2 : String) (f g : Filters) (h : SimFilters f g)
    (q1 q2 : PlannedQuery)
    (h1 : branch_product_sales_trend c1 f = .ok q1)
    (h2 : branch_product_sales_trend c2 g = .ok q2) : q1.sql = q2.sql := by
  obtain ⟨hys, hyf, hyt, hy, hyc, hcat, hcats, hpid, hpn, hlim, hord, hent, havg⟩ := h
  unfold branch_product_sales_trend at h1 h2
  rw [hpid, yfytPart_eq f g hyf hyt] at h1
  rcases hpn with hpe | ⟨s, t, hs, ht, hs0, ht0⟩
  · rw [hpe] at h1
    cases hgp : g.product_id.isinstInt with
    | some k =>
      simp only [hgp] at h1 h2
      injection h1 with h1
      injection h2 with h2
      rw [← h1, ← h2]
    | none =>
      cases hgn : g.product_name.strOpt with
      | some s2 =>
        simp only [hgp, hgn] at h1 h2
        injection h1 with h1
        injection h2 with h2
        rw [← h1, ← h2]
      | none =>
        simp only [hgp, hgn] at h1
        exact absurd h1 (by simp)
  · rw [hs] at h1
    rw [ht] at h2
    simp only [Value.strOpt] at h1 h2
    rw [if_neg hs0] at h1
    rw [if_neg ht0] at h2
    cases hgp : g.product_id.isinstInt with
    | some k =>
      simp only [hgp] at h1 h2
      injection h1 with h1
      injection h2 with h2
      rw [← h1, ← h2]
    | none =>
      simp only [hgp] at h1 h2
      injection h1 with h1
      injection h2 with h2
      rw [← h1, ← h2]

/-- the breakdown template is unchanged across similar filter maps -/
theorem branch_bd_sql_sim (c1 c2 d0 : String) (f g : Filters) (hy : f.year = g.year)
    (q1 q2 : PlannedQuery)
    (h1 : branch_breakdown c1 d0 f = .ok q1)
    (h2 : branch_breakdown c2 d0 g = .ok q2) : q1.sql = q2.sql := by
  unfold branch_breakdown at h1 h2
  rw [hy] at h1
  cases hgy : g.year.isinstInt with
  | none =>
    simp only [hgy] at h1
    exact absurd h1 (by simp)
  | some k =>
    simp only [hgy] at h1 h2
    injection h1 with h1
    injection h2 with h2
    rw [← h1, ← h2]

/-- C3 counterexample: two `sales_trend` payloads whose `category` values
are the non-empty strings " " and "X" are both accepted but produce
different SQL templates — " " strips to empty, so its WHERE clause is
dropped (while the join is still forced). -/
theorem C3_counterexample :
    ∃ q1 q2 : PlannedQuery,
      plan_intent ⟨"sales_trend", ["total_revenue"], ["year"],
        { category := .vStr " " }, .vNone⟩ = .ok q1 ∧
      plan_intent ⟨"sales_trend", ["total_revenue"], ["year"],
        { category := .vStr "X" }, .vNone⟩ = .ok q2 ∧
      (Value.vStr " ").truthy = true ∧ (Value.vStr "X").truthy = true ∧
      q1.sql ≠ q2.sql := by
  refine ⟨_, _, rfl, rfl, by decide, by decide, by decide⟩

/-- C3 (amended): payloads accepted by `plan_intent` that differ only in
the text of non-blank user-supplied string filter values (`category`,
entries of `categories`, `product_name`) produce identical SQL templates:
user text flows only into `params`. -/
theorem C3_sql_invariance (p1 p2 : IntentPayload) (q1 q2 : PlannedQuery)
    (hsim : SimPayload p1 p2)
    (h1 : plan_intent p1 = .ok q1) (h2 : plan_intent p2 = .ok q2) :
    q1.sql = q2.sql := by
  obtain ⟨hint, hmet, hdim, hfil, hch⟩ := hsim
  have hy := hfil.2.2.2.1
  rcases plan_ok_dispatch p1 q1 h1 with ⟨hi1, hb1⟩ | ⟨hi1, hb1⟩ | ⟨hi1, hb1⟩ | ⟨hi1, hb1⟩ | ⟨hi1, hb1⟩ | ⟨hi1, hb1⟩ | ⟨hi1, hb1⟩ | ⟨hi1, hb1⟩ | ⟨hi1, hb1⟩ | ⟨hi1, hb1⟩ | ⟨hi1, hb1⟩ | ⟨hi1, hb1⟩ | ⟨hi1, hb1⟩ | ⟨hi1, hb1⟩ | ⟨hi1, hb1⟩
  · have hi2 : p2.intent = "sales_trend" := by
      rw [← hint, hi1]
    rcases plan_ok_dispatch p2 q2 h2 with ⟨hi2b, hb2⟩ | ⟨hi2b, hb2⟩ | ⟨hi2b, hb2⟩ | ⟨hi2b, hb2⟩ | ⟨hi2b, hb2⟩ | ⟨hi2b, hb2⟩ | ⟨hi2b, hb2⟩ | ⟨hi2b, hb2⟩ | ⟨hi2b, hb2⟩ | ⟨hi2b, hb2⟩ | ⟨hi2b, hb2⟩ | ⟨hi2b, hb2⟩ | ⟨hi2b, hb2⟩ | ⟨hi2b, hb2⟩ | ⟨hi2b, hb2⟩ <;>
      first
        | (exfalso; rw [hi2] at hi2b; exact absurd hi2b (by decide))
        | (subst hb1; subst hb2; exact branch_trend_sql_sim _ _ _ _ hfil)
  · have hi2 : p2.intent = "sales_comparison" := by
      rw [← hint, hi1]
    rcases plan_ok_dispatch p2 q2 h2 with ⟨hi2b, hb2⟩ | ⟨hi2b, hb2⟩ | ⟨hi2b, hb2⟩ | ⟨hi2b, hb2⟩ | ⟨hi2b, hb2⟩ | ⟨hi2b, hb2⟩ | ⟨hi2b, hb2⟩ | ⟨hi2b, hb2⟩ | ⟨hi2b, hb2⟩ | ⟨hi2b, hb2⟩ | ⟨hi2b, hb2⟩ | ⟨hi2b, hb2⟩ | ⟨hi2b, hb2⟩ | ⟨hi2b, hb2⟩ | ⟨hi2b, hb2⟩ <;>
      first
        | (exfalso; rw [hi2] at hi2b; exact absurd hi2b (by decide))
        | (subst hb1; subst hb2; exact branch_trend_sql_sim _ _ _ _ hfil)
  · have hi2 : p2.intent = "revenue_by_category" := by
      rw [← hint, hi1]
    rcases plan_ok_dispatch p2 q2 h2 with ⟨hi2b, hb2⟩ | ⟨hi2b, hb2⟩ | ⟨hi2b, hb2⟩ | ⟨hi2b, hb2⟩ | ⟨hi2b, hb2⟩ | ⟨hi2b, hb2⟩ | ⟨hi2b, hb2⟩ | ⟨hi2b, hb2⟩ | ⟨hi2b, hb2⟩ | ⟨hi2b, hb2⟩ | ⟨hi2b, hb2⟩ | ⟨hi2b, hb2⟩ | ⟨hi2b, hb2⟩ | ⟨hi2b, hb2⟩ | ⟨hi2b, hb2⟩ <;>
      first
        | (exfalso; rw [hi2] at hi2b; exact absurd hi2b (by decide))
        | (subst hb1; subst hb2; exact branch_revenue_by_category_sql_sim _ _ _ _ hfil)
  · have hi2 : p2.intent = "top_products" := by
      rw [← hint, hi1]
    rcases plan_ok_dispatch p2 q2 h2 with ⟨hi2b, hb2⟩ | ⟨hi2b, hb2⟩ | ⟨hi2b, hb2⟩ | ⟨hi2b, hb2⟩ | ⟨hi2b, hb2⟩ | ⟨hi2b, hb2⟩ | ⟨hi2b, hb2⟩ | ⟨hi2b, hb2⟩ | ⟨hi2b, hb2⟩ | ⟨hi2b, hb2⟩ | ⟨hi2b, hb2⟩ | ⟨hi2b, hb2⟩ | ⟨hi2b, hb2⟩ | ⟨hi2b, hb2⟩ | ⟨hi2b, hb2⟩ <;>
      first
        | (exfalso; rw [hi2] at hi2b; exact absurd hi2b (by decide))
        | (subst hb1; subst hb2; exact branch_top_products_sql_sim _ _ _ _ hfil)
  · have hi2 : p2.intent = "sales_comparison_by_year" := by
      rw [← hint, hi1]
    rcases plan_ok_dispatch p2 q2 h2 with ⟨hi2b, hb2⟩ | ⟨hi2b, hb2⟩ | ⟨hi2b, hb2⟩ | ⟨hi2b, hb2⟩ | ⟨hi2b, hb2⟩ | ⟨hi2b, hb2⟩ | ⟨hi2b, hb2⟩ | ⟨hi2b, hb2⟩ | ⟨hi2b, hb2⟩ | ⟨hi2b, hb2⟩ | ⟨hi2b, hb2⟩ | ⟨hi2b, hb2⟩ | ⟨hi2b, hb2⟩ | ⟨hi2b, hb2⟩ | ⟨hi2b, hb2⟩ <;>
      first
        | (exfalso; rw [hi2] at hi2b; exact absurd hi2b (by decide))
        | (subst hb1; subst hb2; exact branch_comparison_by_year_sql_sim _ _ _ _ hfil)
  · have hi2 : p2.intent = "sales_trend_over_time" := by
      rw [← hint, hi1]
    rcases plan_ok_dispatch p2 q2 h2 with ⟨hi2b, hb2⟩ | ⟨hi2b, hb2⟩ | ⟨hi2b, hb2⟩ | ⟨hi2b, hb2⟩ | ⟨hi2b, hb2⟩ | ⟨hi2b, hb2⟩ | ⟨hi2b, hb2⟩ | ⟨hi2b, hb2⟩ | ⟨hi2b, hb2⟩ | ⟨hi2b, hb2⟩ | ⟨hi2b, hb2⟩ | ⟨hi2b, hb2⟩ | ⟨hi2b, hb2⟩ | ⟨hi2b, hb2⟩ | ⟨hi2b, hb2⟩ <;>
      first
        | (exfalso; rw [hi2] at hi2b; exact absurd hi2b (by decide))
        | (subst hb1; subst hb2; exact branch_trend_sql_sim _ _ _ _ hfil)
  · have hi2 : p2.intent = "total_sales_for_period" := by
      rw [← hint, hi1]
    rcases plan_ok_dispatch p2 q2 h2 with ⟨hi2b, hb2⟩ | ⟨hi2b, hb2⟩ | ⟨hi2b, hb2⟩ | ⟨hi2b, hb2⟩ | ⟨hi2b, hb2⟩ | ⟨hi2b, hb2⟩ | ⟨hi2b, hb2⟩ | ⟨hi2b, hb2⟩ | ⟨hi2b, hb2⟩ | ⟨hi2b, hb2⟩ | ⟨hi2b, hb2⟩ | ⟨hi2b, hb2⟩ | ⟨hi2b, hb2⟩ | ⟨hi2b, hb2⟩ | ⟨hi2b, hb2⟩ <;>
      first
        | (exfalso; rw [hi2] at hi2b; exact absurd hi2b (by decide))
        | (subst hb1; subst hb2; exact branch_total_sales_sql_sim _ _ _ _ hfil)
  · have hi2 : p2.intent = "sales_by_product" := by
      rw [← hint, hi1]
    rcases plan_ok_dispatch p2 q2 h2 with ⟨hi2b, hb2⟩ | ⟨hi2b, hb2⟩ | ⟨hi2b, hb2⟩ | ⟨hi2b, hb2⟩ | ⟨hi2b, hb2⟩ | ⟨hi2b, hb2⟩ | ⟨hi2b, hb2⟩ | ⟨hi2b, hb2⟩ | ⟨hi2b, hb2⟩ | ⟨hi2b, hb2⟩ | ⟨hi2b, hb2⟩ | ⟨hi2b, hb2⟩ | ⟨hi2b, hb2⟩ | ⟨hi2b, hb2⟩ | ⟨hi2b, hb2⟩ <;>
      first
        | (exfalso; rw [hi2] at hi2b; exact absurd hi2b (by decide))
        | (subst hb1; subst hb2; exact branch_sales_by_product_sql_sim _ _ _ _ hfil)
  · have hi2 : p2.intent = "product_sales_trend" := by
      rw [← hint, hi1]
    rcases plan_ok_dispatch p2 q2 h2 with ⟨hi2b, hb2⟩ | ⟨hi2b, hb2⟩ | ⟨hi2b, hb2⟩ | ⟨hi2b, hb2⟩ | ⟨hi2b, hb2⟩ | ⟨hi2b, hb2⟩ | ⟨hi2b, hb2⟩ | ⟨hi2b, hb2⟩ | ⟨hi2b, hb2⟩ | ⟨hi2b, hb2⟩ | ⟨hi2b, hb2⟩ | ⟨hi2b, hb2⟩ | ⟨hi2b, hb2⟩ | ⟨hi2b, hb2⟩ | ⟨hi2b, hb2⟩ <;>
      first
        | (exfalso; rw [hi2] at hi2b; exact absurd hi2b (by decide))
        | (exact branch_pst_sql_sim _ _ _ _ hfil q1 q2 hb1 hb2)
  · have hi2 : p2.intent = "sales_by_category" := by
      rw [← hint, hi1]
    rcases plan_ok_dispatch p2 q2 h2 with ⟨hi2b, hb2⟩ | ⟨hi2b, hb2⟩ | ⟨hi2b, hb2⟩ | ⟨hi2b, hb2⟩ | ⟨hi2b, hb2⟩ | ⟨hi2b, hb2⟩ | ⟨hi2b, hb2⟩ | ⟨hi2b, hb2⟩ | ⟨hi2b, hb2⟩ | ⟨hi2b, hb2⟩ | ⟨hi2b, hb2⟩ | ⟨hi2b, hb2⟩ | ⟨hi2b, hb2⟩ | ⟨hi2b, hb2⟩ | ⟨hi2b, hb2⟩ <;>
      first
        | (exfalso; rw [hi2] at hi2b; exact absurd hi2b (by decide))
        | (subst hb1; subst hb2; exact branch_sales_by_category_sql_sim _ _ _ _ hfil)
  · have hi2 : p2.intent = "top_bottom_performers" := by
      rw [← hint, hi1]
    rcases plan_ok_dispatch p2 q2 h2 with ⟨hi2b, hb2⟩ | ⟨hi2b, hb2⟩ | ⟨hi2b, hb2⟩ | ⟨hi2b, hb2⟩ | ⟨hi2b, hb2⟩ | ⟨hi2b, hb2⟩ | ⟨hi2b, hb2⟩ | ⟨hi2b, hb2⟩ | ⟨hi2b, hb2⟩ | ⟨hi2b, hb2⟩ | ⟨hi2b, hb2⟩ | ⟨hi2b, hb2⟩ | ⟨hi2b, hb2⟩ | ⟨hi2b, hb2⟩ | ⟨hi2b, hb2⟩ <;>
      first
        | (exfalso; rw [hi2] at hi2b; exact absurd hi2b (by decide))
        | (subst hb1; subst hb2; rw [hdim]; exact branch_top_bottom_sql_sim _ _ _ _ _ hfil)
  · have hi2 : p2.intent = "sales_breakdown_for_year" := by
      rw [← hint, hi1]
    rcases plan_ok_dispatch p2 q2 h2 with ⟨hi2b, hb2⟩ | ⟨hi2b, hb2⟩ | ⟨hi2b, hb2⟩ | ⟨hi2b, hb2⟩ | ⟨hi2b, hb2⟩ | ⟨hi2b, hb2⟩ | ⟨hi2b, hb2⟩ | ⟨hi2b, hb2⟩ | ⟨hi2b, hb2⟩ | ⟨hi2b, hb2⟩ | ⟨hi2b, hb2⟩ | ⟨hi2b, hb2⟩ | ⟨hi2b, hb2⟩ | ⟨hi2b, hb2⟩ | ⟨hi2b, hb2⟩ <;>
      first
        | (exfalso; rw [hi2] at hi2b; exact absurd hi2b (by decide))
        | (rw [hdim] at hb1; exact branch_bd_sql_sim _ _ _ _ _ hy q1 q2 hb1 hb2)
  · have hi2 : p2.intent = "sales_growth_analysis" := by
      rw [← hint, hi1]
    rcases plan_ok_dispatch p2 q2 h2 with ⟨hi2b, hb2⟩ | ⟨hi2b, hb2⟩ | ⟨hi2b, hb2⟩ | ⟨hi2b, hb2⟩ | ⟨hi2b, hb2⟩ | ⟨hi2b, hb2⟩ | ⟨hi2b, hb2⟩ | ⟨hi2b, hb2⟩ | ⟨hi2b, hb2⟩ | ⟨hi2b, hb2⟩ | ⟨hi2b, hb2⟩ | ⟨hi2b, hb2⟩ | ⟨hi2b, hb2⟩ | ⟨hi2b, hb2⟩ | ⟨hi2b, hb2⟩ <;>
      first
        | (exfalso; rw [hi2] at hi2b; exact absurd hi2b (by decide))
        | (subst hb1; subst hb2; exact branch_growth_sql_sim _ _ _ _ hfil)
  · have hi2 : p2.intent = "clarification_required" := by
      rw [← hint, hi1]
    rcases plan_ok_dispatch p2 q2 h2 with ⟨hi2b, hb2⟩ | ⟨hi2b, hb2⟩ | ⟨hi2b, hb2⟩ | ⟨hi2b, hb2⟩ | ⟨hi2b, hb2⟩ | ⟨hi2b, hb2⟩ | ⟨hi2b, hb2⟩ | ⟨hi2b, hb2⟩ | ⟨hi2b, hb2⟩ | ⟨hi2b, hb2⟩ | ⟨hi2b, hb2⟩ | ⟨hi2b, hb2⟩ | ⟨hi2b, hb2⟩ | ⟨hi2b, hb2⟩ | ⟨hi2b, hb2⟩ <;>
      first
        | (exfalso; rw [hi2] at hi2b; exact absurd hi2b (by decide))
        | (subst hb1; subst hb2; rfl)
  · have hi2 : p2.intent = "multi_year_comparison" := by
      rw [← hint, hi1]
    rcases plan_ok_dispatch p2 q2 h2 with ⟨hi2b, hb2⟩ | ⟨hi2b, hb2⟩ | ⟨hi2b, hb2⟩ | ⟨hi2b, hb2⟩ | ⟨hi2b, hb2⟩ | ⟨hi2b, hb2⟩ | ⟨hi2b, hb2⟩ | ⟨hi2b, hb2⟩ | ⟨hi2b, hb2⟩ | ⟨hi2b, hb2⟩ | ⟨hi2b, hb2⟩ | ⟨hi2b, hb2⟩ | ⟨hi2b, hb2⟩ | ⟨hi2b, hb2⟩ | ⟨hi2b, hb2⟩ <;>
      first
        | (exfalso; rw [hi2] at hi2b; exact absurd hi2b (by decide))
        | (subst hb1; subst hb2; exact branch_multi_year_sql_sim _ _ _ _ hfil)

/-- C3 witness: two trend payloads with the categories "Toyota" and
"Nissan" get the same SQL template. -/
theorem C3_sql_invariance_witness :
    ∃ q1 q2 : PlannedQuery,
      plan_intent ⟨"sales_trend", ["total_revenue"], ["year"],
        { category := .vStr "Toyota" }, .vNone⟩ = .ok q1 ∧
      plan_intent ⟨"sales_trend", ["total_revenue"], ["year"],
        { category := .vStr "Nissan" }, .vNone⟩ = .ok q2 ∧
      q1.sql = q2.sql :=
  ⟨_, _, rfl, rfl,
   C3_sql_invariance
     ⟨"sales_trend", ["total_revenue"], ["year"], { category := .vStr "Toyota" }, .vNone⟩
     ⟨"sales_trend", ["total_revenue"], ["year"], { category := .vStr "Nissan" }, .vNone⟩
     _ _
     ⟨rfl, rfl, rfl,
      ⟨rfl, rfl, rfl, rfl, rfl,
       Or.inr ⟨"Toyota", "Nissan", rfl, rfl, by decide, by decide⟩,
       Or.inl rfl, rfl, Or.inl rfl, rfl, rfl, rfl, rfl⟩,
      rfl⟩
     rfl rfl⟩

end Anarisuto
